import Mathlib

/-!
Shallow embedding of the MugShot-Studio thumbnail-generation pipeline.

The definitions below translate, line by line, the job-processing code in
`backend/app/services/background_tasks.py` (class `JobProcessor`) and the
queueing endpoints in `backend/app/api/v1/endpoints/jobs.py` (`create_job`)
and `backend/app/api/v1/endpoints/projects.py` (`create_project`,
`queue_generation`).

The BaaS tables (`users`, `projects`, `prompts`, `jobs`, `audit`, `renders`),
blob storage, and the outbound HTTP log are modelled as explicit lists in a
`DB` record.  Every remote call of the Python code is a suspension point that
may raise; an `Env` record carries one success flag per remote operation
performed by `JobProcessor.process` plus oracles for the external services
(providers, HTTP fetches, base64 decoding, cost function).  A raising remote
operation leaves the store unchanged; a succeeding one applies its write.
Exceptions are propagated exactly as Python's `try`/`except` blocks do.
-/

namespace MugShot

/-! ## Data model: rows of the BaaS tables -/

/-- A row of the `users` table (only the fields read/written by the pipeline:
`id` and the scalar credit balance). -/
structure UserRow where
  id : String
  credits : Int
deriving DecidableEq, Repr

/-- A row of the `projects` table.  `mode`, `platform`, `width`, `height`,
`status` are set at insert time by `create_project`; the pipeline reads
`user_id` and `mode`. -/
structure ProjectRow where
  id : String
  user_id : String
  mode : String
  platform : String
  width : Int
  height : Int
  status : String
deriving DecidableEq, Repr

/-- The `raw` JSON blob of a prompt row.  Of its keys the orchestrator reads
only `refs` (asset ids of reference images); the headline/subtext/vibe text
keys only feed the prompt string sent to the external providers, which are
oracles here. -/
structure PromptRaw where
  refs : List String
deriving DecidableEq, Repr

/-- A row of the `prompts` table. -/
structure PromptRow where
  project_id : String
  raw : PromptRaw
  model_pref : Option String
deriving DecidableEq, Repr

/-- A row of the `jobs` table.  `model` and `quality` are `Option` because
`JobProcessor.process` reads them with `.get(key, default)`; `provider` is
set by `create_job`, `provider_meta_provider` by `queue_generation`. -/
structure JobRow where
  id : String
  project_id : String
  model : Option String
  quality : Option String
  status : String
  cost_credits : Option Int
  finished_at : Option Nat
  provider : Option String
  provider_meta_provider : Option String
deriving DecidableEq, Repr

/-- A row of the append-only `audit` table:
`{user_id, action, delta_credits, meta}` with the `meta` keys actually
written by the code (`job_id`, `reason`, `project_id`). -/
structure AuditEntry where
  user_id : String
  action : String
  delta_credits : Int
  meta_job_id : Option String
  meta_reason : Option String
  meta_project_id : Option String
deriving DecidableEq, Repr

/-- A row of the `renders` table inserted by `_save_results`. -/
structure RenderRow where
  job_id : String
  variant : Nat
  thumbnail_path : String
deriving DecidableEq, Repr

/-- An object uploaded to blob storage. -/
structure StorageObject where
  bucket : String
  path : String
  contents : List Nat
  content_type : String
deriving DecidableEq, Repr

/-- An outbound HTTP GET performed by `_save_results` to fetch a result URL;
`timeout_s` records the timeout passed to the client (seconds). -/
structure HttpRequest where
  url : String
  timeout_s : Nat
deriving DecidableEq, Repr

/-- The whole store.  `jobStatusLog` is the externally observable history of
the `status` column: a pair `(job id, status)` is appended whenever a row
with that id exists and a status write to it succeeds (a row is inserted with
its initial status logged). -/
structure DB where
  users : List UserRow
  projects : List ProjectRow
  prompts : List PromptRow
  jobs : List JobRow
  audit : List AuditEntry
  renders : List RenderRow
  storage : List StorageObject
  httpLog : List HttpRequest
  jobStatusLog : List (String × String)
deriving DecidableEq, Repr

/-- One generated image payload, as returned by a provider: Python passes
around either a `str` (URL or base64 text) or raw bytes. -/
inductive ImagePayload where
  | str (s : String)
  | bytes (b : List Nat)
deriving DecidableEq, Repr

/-- The argument of `calculate_job_credits`: the `job_info` dict built in
`JobProcessor.process` step 3 (and by the endpoints). -/
structure JobInfo where
  quality : String
  mode : String
  model : String
deriving DecidableEq, Repr

/-- Python exceptions raised by the pipeline, up to the detail the
orchestrator observes (it only catches `Exception` and stringifies it). -/
inductive PyErr where
  | dbError
  | notFound (what : String)
  | insufficientCredits
  | providerError
  | noImages
  | saveFailed
deriving DecidableEq, Repr

/-- The dict returned by `JobProcessor.process`. -/
structure PResult where
  success : Bool
  images_saved : Option Nat
  error : Option PyErr
deriving DecidableEq, Repr

/-- Either `process` returned a result dict, or an exception escaped it
(which happens only when the failure handler's own status write raises). -/
inductive Outcome where
  | returned (r : PResult)
  | raised (e : PyErr)
deriving DecidableEq, Repr

/-! ## Environment: one success flag per remote operation, plus oracles -/

/-- External nondeterminism for one invocation of `JobProcessor.process`:
for each remote call of the straight-line code, a flag saying whether that
call succeeds or raises, and oracles for external services.  `genGemini`,
`genBytedance`, `genFal` are the provider results (`none` = the provider
raised).  Per-image flags of `_save_results` are indexed by the variant
index. -/
structure Env where
  fetchJobOk : Bool
  updateRunningOk : Bool
  fetchProjectOk : Bool
  fetchPromptOk : Bool
  fetchUserOk : Bool
  calculate_job_credits : JobInfo → Int
  deductUpdateOk : Bool
  deductAuditOk : Bool
  assetDownload : String → Option (List Nat)
  genGemini : Option (List ImagePayload)
  genBytedance : Option (List ImagePayload)
  genFal : Option (List ImagePayload)
  imgBytesOk : Nat → Bool
  httpContent : String → List Nat
  b64decode : String → List Nat
  imgUploadOk : Nat → Bool
  imgInsertOk : Nat → Bool
  updateSucceededOk : Bool
  updateFailedOk : Bool
  refundSelectOk : Bool
  refundUpdateOk : Bool
  refundAuditOk : Bool
  now : Nat

/-! ## String helpers mirroring Python's `in`, `startswith` and truthiness -/

/-- Python `str.startswith` on explicit character lists. -/
def charsStart : List Char → List Char → Bool
  | [], _ => true
  | _ :: _, [] => false
  | a :: as, b :: bs => a == b && charsStart as bs

/-- Python `pat in s` (substring test) on explicit character lists. -/
def charsContain (pat : List Char) : List Char → Bool
  | [] => charsStart pat []
  | s@(_ :: rest) => charsStart pat s || charsContain pat rest

/-- Python `s.startswith pat`. -/
def strStarts (s pat : String) : Bool := charsStart pat.toList s.toList

/-- Python `pat in s`. -/
def strContains (s pat : String) : Bool := charsContain pat.toList s.toList

/-- Python truthiness of an optional string (`None` and `""` are falsy). -/
def strTruthy (o : Option String) : Bool :=
  match o with
  | none => false
  | some s => !(s == "")

/-! ## Primitive store operations -/

/-- `supabase.table("users").update({"credits": c}).eq("id", uid)`. -/
def updateUserCredits (db : DB) (uid : String) (c : Int) : DB :=
  { db with users := db.users.map fun u => if u.id == uid then { u with credits := c } else u }

/-- `supabase.table("audit").insert(...)`. -/
def insertAudit (db : DB) (a : AuditEntry) : DB :=
  { db with audit := db.audit ++ [a] }

/-- `supabase.table("jobs").insert(row)`; the row's initial status is
observable, so it is logged. -/
def insertJob (db : DB) (j : JobRow) : DB :=
  { db with jobs := db.jobs ++ [j], jobStatusLog := db.jobStatusLog ++ [(j.id, j.status)] }

/-- `JobProcessor._update_job_status(status, **kwargs)`: a partial update of
every row matching the id; `finished_at` / `cost_credits` are written only
when passed.  The new status is observable only if a matching row exists. -/
def updateJobStatus (db : DB) (jid status : String)
    (finished : Option Nat) (cost : Option Int) : DB :=
  { db with
    jobs := db.jobs.map fun j =>
      if j.id == jid then
        { j with status := status
                 finished_at := match finished with | some t => some t | none => j.finished_at
                 cost_credits := match cost with | some c => some c | none => j.cost_credits }
      else j
    jobStatusLog :=
      if db.jobs.any (fun j => j.id == jid) then db.jobStatusLog ++ [(jid, status)]
      else db.jobStatusLog }

/-! ## Observers -/

/-- The credit balance the store currently holds for a user. -/
def userCredits (db : DB) (uid : String) : Option Int :=
  (db.users.find? (fun u => u.id == uid)).map (·.credits)

/-- The status the store currently holds for a job. -/
def jobStatus (db : DB) (jid : String) : Option String :=
  (db.jobs.find? (fun j => j.id == jid)).map (·.status)

/-- The finish timestamp the store currently holds for a job. -/
def jobFinishedAt (db : DB) (jid : String) : Option (Option Nat) :=
  (db.jobs.find? (fun j => j.id == jid)).map (·.finished_at)

/-- The externally observed sequence of status values of one job. -/
def traceOf (db : DB) (jid : String) : List String :=
  db.jobStatusLog.filterMap fun p => if p.1 == jid then some p.2 else none

/-! ## Audit-entry builders (the exact dicts inserted by the code) -/

/-- The audit row of `_validate_and_deduct_credits`. -/
def deductEntry (uid jid : String) (amount : Int) : AuditEntry :=
  { user_id := uid, action := "deduct_credits", delta_credits := -amount,
    meta_job_id := some jid, meta_reason := some "thumbnail_generation",
    meta_project_id := none }

/-- The audit row of `_refund_credits`. -/
def refundEntry (uid jid : String) (amount : Int) : AuditEntry :=
  { user_id := uid, action := "refund_credits", delta_credits := amount,
    meta_job_id := some jid, meta_reason := some "generation_failed",
    meta_project_id := none }

/-- The audit row of the `queue_generation` endpoint. -/
def jobQueuedEntry (uid jid pid : String) (amount : Int) : AuditEntry :=
  { user_id := uid, action := "job_queued", delta_credits := -amount,
    meta_job_id := some jid, meta_reason := none, meta_project_id := some pid }

/-- Modelled from the spec: the bucket name held by
`StorageConfig.RENDERS_BUCKET` (`app/core/storage.py`, not in the source
tree); the spec (§4.3) calls it "a bucket configured for renders". -/
def RENDERS_BUCKET : String := "renders"

/-- The storage path `f"renders/{self.job_id}_{i}.png"` of `_save_results`. -/
def renderPath (jid : String) (i : Nat) : String :=
  "renders/" ++ jid ++ "_" ++ toString i ++ ".png"

/-! ## `JobProcessor._refund_credits` -/

/-- `_refund_credits(user_id, amount)`: three remote operations inside one
`try` whose `except` swallows every exception, so the function is total;
a raising operation leaves all later writes unperformed. -/
def refundCredits (env : Env) (db : DB) (jid uid : String) (amount : Int) : DB :=
  if env.refundSelectOk then
    let current : Int :=
      match db.users.find? (fun u => u.id == uid) with
      | some u => u.credits
      | none => 0
    let refunded := current + amount
    if env.refundUpdateOk then
      let db1 := updateUserCredits db uid refunded
      if env.refundAuditOk then insertAudit db1 (refundEntry uid jid amount)
      else db1
    else db
  else db

/-! ## `JobProcessor._save_results` -/

/-- Persist one image (`_save_results` loop body, index `i`): resolve the
payload to bytes (URL → HTTP GET with `timeout=30.0`; other string → base64
decode; bytes → as-is), upload under `renders/{job_id}_{i}.png` with content
type `image/png`, insert the render row.  Returns the updated store and
whether `saved_count` was incremented; any exception is caught by the
per-image `except` (so a failure only skips the rest of this iteration). -/
def saveOne (env : Env) (jid : String) (db : DB) (i : Nat) (img : ImagePayload) : DB × Bool :=
  let upload : DB → List Nat → DB × Bool := fun db bytes =>
    if env.imgUploadOk i then
      let db1 := { db with storage := db.storage ++
        [{ bucket := RENDERS_BUCKET, path := renderPath jid i,
           contents := bytes, content_type := "image/png" }] }
      if env.imgInsertOk i then
        ({ db1 with renders := db1.renders ++
          [{ job_id := jid, variant := i, thumbnail_path := renderPath jid i }] }, true)
      else (db1, false)
    else (db, false)
  match img with
  | .str s =>
    if strStarts s "http" then
      let db1 := { db with httpLog := db.httpLog ++ [{ url := s, timeout_s := 30 }] }
      if env.imgBytesOk i then upload db1 (env.httpContent s) else (db1, false)
    else
      if env.imgBytesOk i then upload db (env.b64decode s) else (db, false)
  | .bytes b => upload db b

/-- The `enumerate(images)` loop of `_save_results`, starting at index `k`,
accumulating `saved_count`. -/
def saveLoop (env : Env) (jid : String) : Nat → List ImagePayload → DB → DB × Nat
  | _, [], db => (db, 0)
  | i, img :: rest, db =>
    let r1 := saveOne env jid db i img
    let r2 := saveLoop env jid (i + 1) rest r1.1
    (r2.1, (if r1.2 then 1 else 0) + r2.2)

/-- `_save_results(images)`: returns the updated store and `saved_count`. -/
def saveResults (env : Env) (jid : String) (db : DB) (images : List ImagePayload) : DB × Nat :=
  saveLoop env jid 0 images db

/-- Whether the iteration of `_save_results` at index `i` saves its image:
every per-image remote operation must succeed (raw-byte payloads have no
fetch/decode step, hence no failure point there). -/
def imgSaves (env : Env) (i : Nat) (img : ImagePayload) : Bool :=
  (match img with
   | .str _ => env.imgBytesOk i
   | .bytes _ => true) && env.imgUploadOk i && env.imgInsertOk i

/-! ## Provider dispatch (`JobProcessor.process` step 5) -/

/-- The `if "gemini" in model or "nano" in model: ... elif ... elif ...`
chain; a model matching no branch leaves `images = []`.  Provider results
are the oracles (a `none` oracle = the provider raised). -/
def dispatchGenerate (env : Env) (model : String) : Except PyErr (List ImagePayload) :=
  if strContains model "gemini" || strContains model "nano" then
    match env.genGemini with
    | some imgs => .ok imgs
    | none => .error .providerError
  else if strContains model "seedream" || strContains model "bytedance" then
    match env.genBytedance with
    | some imgs => .ok imgs
    | none => .error .providerError
  else if strContains model "fal" then
    match env.genFal with
    | some imgs => .ok imgs
    | none => .error .providerError
  else .ok []

/-! ## `JobProcessor.process` -/

/-- The instance attributes of `JobProcessor` read by the failure handler;
`__init__` sets `project = None` and `required_credits = 0`, and they are
(re)assigned exactly where the Python assignments sit. -/
structure Attrs where
  projectAttr : Option ProjectRow
  required_credits : Int
deriving Repr

/-- Result of the `try` body of `process`: either it ran to completion
(returning the state after the `succeeded` update plus `saved_count` and the
deducted cost), or an exception was raised at some step, with the state and
the instance attributes as they were at that moment. -/
inductive BodyOut where
  | done (db : DB) (saved : Nat) (rc : Int)
  | exn (db : DB) (attrs : Attrs) (e : PyErr)

/-- The `try` body of `JobProcessor.process`, steps 1-7, translated
statement by statement.  Each remote call first consults its `Env` flag
(raising leaves the store untouched), then performs its read/write. -/
def processBody (env : Env) (jid : String) (db : DB) : BodyOut :=
  let attrs0 : Attrs := { projectAttr := none, required_credits := 0 }
  -- 1. fetch job
  if env.fetchJobOk then
    match db.jobs.find? (fun j => j.id == jid) with
    | none => .exn db attrs0 (.notFound "job")
    | some job =>
      -- transition to running
      if env.updateRunningOk then
        let db := updateJobStatus db jid "running" none none
        -- 2. fetch project and prompt
        if env.fetchProjectOk then
          match db.projects.find? (fun p => p.id == job.project_id) with
          | none => .exn db attrs0 (.notFound "project")
          | some project =>
            if env.fetchPromptOk then
              match db.prompts.find? (fun pr => pr.project_id == job.project_id) with
              | none => .exn db attrs0 (.notFound "prompt")
              | some promptRow =>
                let attrs1 : Attrs := { projectAttr := some project, required_credits := 0 }
                -- 3. job info & credit validation/deduction
                let model := job.model.getD "nano_banana"
                let info : JobInfo :=
                  { quality := job.quality.getD "std", mode := project.mode, model := model }
                if env.fetchUserOk then
                  match db.users.find? (fun u => u.id == project.user_id) with
                  | none => .exn db attrs1 (.notFound "user")
                  | some user =>
                    let required := env.calculate_job_credits info
                    if user.credits < required then .exn db attrs1 .insufficientCredits
                    else
                      if env.deductUpdateOk then
                        let db := updateUserCredits db project.user_id (user.credits - required)
                        if env.deductAuditOk then
                          let db := insertAudit db (deductEntry project.user_id jid required)
                          let attrs2 : Attrs :=
                            { projectAttr := some project, required_credits := required }
                          -- 4. reference downloads (each failure caught and skipped)
                          let _refImages := promptRow.raw.refs.filterMap env.assetDownload
                          -- 5. provider dispatch
                          match dispatchGenerate env model with
                          | .error e => .exn db attrs2 e
                          | .ok images =>
                            if images.isEmpty then .exn db attrs2 .noImages
                            else
                              -- 6. save results
                              let saved := saveResults env jid db images
                              if saved.2 == 0 then .exn saved.1 attrs2 .saveFailed
                              else
                                -- 7. succeeded
                                if env.updateSucceededOk then
                                  .done (updateJobStatus saved.1 jid "succeeded"
                                          (some env.now) (some required)) saved.2 required
                                else .exn saved.1 attrs2 .dbError
                        else .exn db attrs1 .dbError
                      else .exn db attrs1 .dbError
                else .exn db attrs1 .dbError
            else .exn db attrs0 .dbError
          else .exn db attrs0 .dbError
      else .exn db attrs0 .dbError
  else .exn db attrs0 .dbError

/-- The central `except` handler of `JobProcessor.process`: mark the job
`failed` with a finish timestamp (if that write itself raises, the exception
escapes `process`) and, when credits were deducted
(`self.required_credits > 0 and self.project`), issue the best-effort
refund; finally the failure dict is returned. -/
def handleExn (env : Env) (jid : String) (db : DB) (attrs : Attrs) (e : PyErr) :
    DB × Outcome :=
  if env.updateFailedOk then
    let db1 := updateJobStatus db jid "failed" (some env.now) none
    let db2 :=
      if attrs.required_credits > 0 then
        match attrs.projectAttr with
        | some project => refundCredits env db1 jid project.user_id attrs.required_credits
        | none => db1
      else db1
    (db2, .returned { success := false, images_saved := none, error := some e })
  else (db, .raised .dbError)

/-- `JobProcessor.process`: run the `try` body; route any exception to the
central handler. -/
def process (env : Env) (jid : String) (db : DB) : DB × Outcome :=
  match processBody env jid db with
  | .done db saved _rc =>
    (db, .returned { success := true, images_saved := some saved, error := none })
  | .exn db attrs e => handleExn env jid db attrs e

/-! ## Endpoint embeddings

The three request handlers the claims reference.  Their remote operations
are modelled on the success path (the claims about them concern accepted
requests); data-dependent rejections (missing rows, insufficient credits)
are returned as API errors exactly where the handlers raise. -/

/-- HTTP-level failures surfaced by the handlers. -/
inductive ApiErr where
  | notFound
  | profileNotFound
  | insufficientCredits
deriving DecidableEq, Repr

/-- Request body of `POST /projects/` (`ProjectCreate`); only the fields the
embedded logic reads. -/
structure ProjectCreate where
  mode : String
  platform : String
  width : Int
  height : Int
  model_pref : Option String
  refs : Option (List String)
deriving DecidableEq, Repr

/-- Request body of `POST /jobs/` (`JobCreate`). -/
structure JobCreate where
  project_id : String
  quality : String
  variants : Nat
  model : Option String
deriving DecidableEq, Repr

/-- Request body of `POST /projects/{id}/queue` (`JobQueueRequest`). -/
structure JobQueueRequest where
  quality : String
  variants : Nat
  model : Option String
deriving DecidableEq, Repr

/-- The job payload returned by `create_job` / `queue_generation`. -/
structure JobResponse where
  job_id : String
  status : String
  cost_credits : Int
deriving DecidableEq, Repr

/-- The `available_models` literal of `create_job` in
`app/api/v1/endpoints/jobs.py`. -/
def available_models_jobs : List String :=
  ["nano_banana", "nano_banana_pro", "seedream", "gemini_flash", "gemini_pro", "fal_flux"]

/-- The `available_models` literal of `queue_generation` in
`app/api/v1/endpoints/projects.py`. -/
def available_models_queue : List String :=
  ["nano_banana", "nano_banana_pro", "seedream", "gemini_flash", "gemini_pro", "fal_flux"]

/-- The `available_models` literal of `create_project` in
`app/api/v1/endpoints/projects.py`. -/
def available_models_project : List String :=
  ["nano_banana", "nano_banana_pro", "seedream", "gemini_flash", "gemini_pro", "fal_flux"]

/-- `create_project`: validate `model_pref` against the allow-list (silent
fallback to `"nano_banana"`), insert the project row with status `draft`,
insert the prompt row carrying the validated `model_pref`.  `newProjectId`
models the id generated by the store. -/
def createProject (newProjectId : String) (db : DB) (user_id : String)
    (p : ProjectCreate) : DB :=
  let model_pref0 := if strTruthy p.model_pref then p.model_pref.getD "" else "nano_banana"
  let model_pref := if available_models_project.contains model_pref0 then model_pref0
                    else "nano_banana"
  let projRow : ProjectRow :=
    { id := newProjectId, user_id := user_id, mode := p.mode, platform := p.platform,
      width := p.width, height := p.height, status := "draft" }
  let db1 := { db with projects := db.projects ++ [projRow] }
  { db1 with prompts := db1.prompts ++
    [{ project_id := newProjectId, raw := { refs := p.refs.getD [] },
       model_pref := some model_pref }] }

/-- `create_job` (`app/api/v1/endpoints/jobs.py`): ownership check, model
default + allow-list fallback, cost computation, balance check — then the
job row is inserted (status `queued`) and the background task scheduled.
No deduction and no audit row are written by this endpoint. -/
def createJob (cost : JobInfo → Int) (newJobId : String) (db : DB) (user_id : String)
    (job_in : JobCreate) : Except ApiErr (DB × JobResponse) :=
  match db.projects.find? (fun p => p.id == job_in.project_id && p.user_id == user_id) with
  | none => .error .notFound
  | some project =>
    let model0 := if strTruthy job_in.model then job_in.model.getD "" else "nano_banana"
    let model := if available_models_jobs.contains model0 then model0 else "nano_banana"
    let info : JobInfo := { quality := job_in.quality, mode := project.mode, model := model }
    let credits_needed := cost info
    match db.users.find? (fun u => u.id == user_id) with
    | none => .error .profileNotFound
    | some u =>
      if u.credits < credits_needed then .error .insufficientCredits
      else
        let jobRow : JobRow :=
          { id := newJobId, project_id := job_in.project_id, model := some model,
            quality := some job_in.quality, status := "queued",
            cost_credits := some credits_needed, finished_at := none,
            provider := some model, provider_meta_provider := none }
        let db1 := insertJob db jobRow
        .ok (db1, { job_id := newJobId, status := "queued", cost_credits := credits_needed })

/-- `queue_generation` (`app/api/v1/endpoints/projects.py`): ownership check;
model from the request, else the prompt's `model_pref`, else the default;
allow-list fallback; cost computation and balance check; job row inserted
(status `queued`); background task scheduled; then the endpoint itself
updates the user's balance and inserts a `job_queued` audit row. -/
def queueGeneration (cost : JobInfo → Int) (newJobId : String) (db : DB)
    (project_id user_id : String) (job_in : JobQueueRequest) :
    Except ApiErr (DB × JobResponse) :=
  match db.projects.find? (fun p => p.id == project_id && p.user_id == user_id) with
  | none => .error .notFound
  | some project =>
    let mReq := job_in.model
    let mPrompt :=
      if strTruthy mReq then mReq
      else
        match db.prompts.find? (fun pr => pr.project_id == project_id) with
        | some pr => pr.model_pref
        | none => mReq
    let model0 := if strTruthy mPrompt then mPrompt.getD "" else "nano_banana"
    let model := if available_models_queue.contains model0 then model0 else "nano_banana"
    let info : JobInfo := { quality := job_in.quality, mode := project.mode, model := model }
    let credits_needed := cost info
    match db.users.find? (fun u => u.id == user_id) with
    | none => .error .profileNotFound
    | some u =>
      if u.credits < credits_needed then .error .insufficientCredits
      else
        let jobRow : JobRow :=
          { id := newJobId, project_id := project_id, model := some model,
            quality := some job_in.quality, status := "queued",
            cost_credits := some credits_needed, finished_at := none,
            provider := none, provider_meta_provider := some model }
        let db1 := insertJob db jobRow
        let db2 := updateUserCredits db1 user_id (u.credits - credits_needed)
        let db3 := insertAudit db2 (jobQueuedEntry user_id newJobId project_id credits_needed)
        .ok (db3, { job_id := newJobId, status := "queued", cost_credits := credits_needed })

/-! ## Basic facts about the store operations -/

@[simp] theorem users_insertAudit (db : DB) (a : AuditEntry) :
    (insertAudit db a).users = db.users := rfl

@[simp] theorem projects_insertAudit (db : DB) (a : AuditEntry) :
    (insertAudit db a).projects = db.projects := rfl

@[simp] theorem prompts_insertAudit (db : DB) (a : AuditEntry) :
    (insertAudit db a).prompts = db.prompts := rfl

@[simp] theorem jobs_insertAudit (db : DB) (a : AuditEntry) :
    (insertAudit db a).jobs = db.jobs := rfl

@[simp] theorem audit_insertAudit (db : DB) (a : AuditEntry) :
    (insertAudit db a).audit = db.audit ++ [a] := rfl

@[simp] theorem renders_insertAudit (db : DB) (a : AuditEntry) :
    (insertAudit db a).renders = db.renders := rfl

@[simp] theorem log_insertAudit (db : DB) (a : AuditEntry) :
    (insertAudit db a).jobStatusLog = db.jobStatusLog := rfl

@[simp] theorem projects_updateUserCredits (db : DB) (uid : String) (c : Int) :
    (updateUserCredits db uid c).projects = db.projects := rfl

@[simp] theorem prompts_updateUserCredits (db : DB) (uid : String) (c : Int) :
    (updateUserCredits db uid c).prompts = db.prompts := rfl

@[simp] theorem jobs_updateUserCredits (db : DB) (uid : String) (c : Int) :
    (updateUserCredits db uid c).jobs = db.jobs := rfl

@[simp] theorem audit_updateUserCredits (db : DB) (uid : String) (c : Int) :
    (updateUserCredits db uid c).audit = db.audit := rfl

@[simp] theorem renders_updateUserCredits (db : DB) (uid : String) (c : Int) :
    (updateUserCredits db uid c).renders = db.renders := rfl

@[simp] theorem log_updateUserCredits (db : DB) (uid : String) (c : Int) :
    (updateUserCredits db uid c).jobStatusLog = db.jobStatusLog := rfl

@[simp] theorem users_updateJobStatus (db : DB) (jid status : String)
    (fin : Option Nat) (cost : Option Int) :
    (updateJobStatus db jid status fin cost).users = db.users := rfl

@[simp] theorem projects_updateJobStatus (db : DB) (jid status : String)
    (fin : Option Nat) (cost : Option Int) :
    (updateJobStatus db jid status fin cost).projects = db.projects := rfl

@[simp] theorem prompts_updateJobStatus (db : DB) (jid status : String)
    (fin : Option Nat) (cost : Option Int) :
    (updateJobStatus db jid status fin cost).prompts = db.prompts := rfl

@[simp] theorem audit_updateJobStatus (db : DB) (jid status : String)
    (fin : Option Nat) (cost : Option Int) :
    (updateJobStatus db jid status fin cost).audit = db.audit := rfl

@[simp] theorem renders_updateJobStatus (db : DB) (jid status : String)
    (fin : Option Nat) (cost : Option Int) :
    (updateJobStatus db jid status fin cost).renders = db.renders := rfl

@[simp] theorem users_insertJob (db : DB) (j : JobRow) :
    (insertJob db j).users = db.users := rfl

@[simp] theorem projects_insertJob (db : DB) (j : JobRow) :
    (insertJob db j).projects = db.projects := rfl

@[simp] theorem prompts_insertJob (db : DB) (j : JobRow) :
    (insertJob db j).prompts = db.prompts := rfl

@[simp] theorem jobs_insertJob (db : DB) (j : JobRow) :
    (insertJob db j).jobs = db.jobs ++ [j] := rfl

@[simp] theorem audit_insertJob (db : DB) (j : JobRow) :
    (insertJob db j).audit = db.audit := rfl

@[simp] theorem renders_insertJob (db : DB) (j : JobRow) :
    (insertJob db j).renders = db.renders := rfl

/-- A map that rewrites only elements satisfying `p`, through a function that
preserves `p`, maps the first `p`-witness to its image. -/
theorem find?_map_of_id {α : Type} (p : α → Bool) (f : α → α)
    (hp : ∀ x, p (f x) = p x) (l : List α) (u : α)
    (h : l.find? p = some u) :
    (l.map fun x => if p x then f x else x).find? p = some (f u) := by
  induction l with
  | nil => simp at h
  | cons a t ih =>
    by_cases ha : p a = true
    · rw [List.find?_cons_of_pos _ ha] at h
      have hau : a = u := by injection h
      subst hau
      simp only [List.map_cons, if_pos ha]
      exact List.find?_cons_of_pos _ ((hp a).trans ha)
    · rw [List.find?_cons_of_neg _ ha] at h
      simp only [List.map_cons, if_neg ha]
      rw [List.find?_cons_of_neg _ (by simpa using ha)]
      exact ih h

/-- Companion to `find?_map_of_id` for `List.any`. -/
theorem any_map_of_id {α : Type} (p : α → Bool) (f : α → α)
    (hp : ∀ x, p (f x) = p x) (l : List α) :
    (l.map fun x => if p x then f x else x).any p = l.any p := by
  induction l with
  | nil => rfl
  | cons a t ih =>
    by_cases ha : p a = true
    · simp [if_pos ha, ha, hp]
    · simp only [List.map_cons, if_neg ha, List.any_cons, ih]

/-- Looking up the updated user after `updateUserCredits`. -/
theorem find?_users_updateUserCredits (db : DB) (uid : String) (c : Int) (u : UserRow)
    (h : db.users.find? (fun x => x.id == uid) = some u) :
    (updateUserCredits db uid c).users.find? (fun x => x.id == uid)
      = some { u with credits := c } := by
  exact find?_map_of_id _ (fun x => { x with credits := c }) (fun x => rfl) _ _ h

/-- Looking up the updated job after `updateJobStatus`. -/
theorem find?_jobs_updateJobStatus (db : DB) (jid status : String)
    (fin : Option Nat) (cost : Option Int) (j : JobRow)
    (h : db.jobs.find? (fun x => x.id == jid) = some j) :
    (updateJobStatus db jid status fin cost).jobs.find? (fun x => x.id == jid)
      = some { j with status := status
                      finished_at := match fin with | some t => some t | none => j.finished_at
                      cost_credits := match cost with | some c => some c | none => j.cost_credits } := by
  exact find?_map_of_id _
    (fun x => { x with status := status
                       finished_at := match fin with | some t => some t | none => x.finished_at
                       cost_credits := match cost with | some c => some c | none => x.cost_credits })
    (fun x => rfl) _ _ h

/-- A successful status write to an existing job appends to its observable
status history. -/
theorem log_updateJobStatus_of_exists (db : DB) (jid status : String)
    (fin : Option Nat) (cost : Option Int)
    (h : db.jobs.any (fun j => j.id == jid) = true) :
    (updateJobStatus db jid status fin cost).jobStatusLog
      = db.jobStatusLog ++ [(jid, status)] := by
  simp [updateJobStatus, h]

/-- A status write touching no row is not observable. -/
theorem log_updateJobStatus_of_absent (db : DB) (jid status : String)
    (fin : Option Nat) (cost : Option Int)
    (h : db.jobs.any (fun j => j.id == jid) = false) :
    (updateJobStatus db jid status fin cost).jobStatusLog = db.jobStatusLog := by
  simp [updateJobStatus, h]

/-- Mapping a function that cannot change a predicate cannot change `any`. -/
theorem any_map_congr {a : Type} (g : a → a) (q : a → Bool)
    (hq : ∀ x, q (g x) = q x) (l : List a) : (l.map g).any q = l.any q := by
  induction l with
  | nil => rfl
  | cons x t ih => simp only [List.map_cons, List.any_cons, hq, ih]

/-- `updateJobStatus` keeps every job id in place. -/
theorem any_updateJobStatus (db : DB) (jid status : String)
    (fin : Option Nat) (cost : Option Int) (jid' : String) :
    (updateJobStatus db jid status fin cost).jobs.any (fun j => j.id == jid')
      = db.jobs.any (fun j => j.id == jid') := by
  refine any_map_congr _ _ (fun x => ?_) db.jobs
  by_cases hx : (x.id == jid) = true
  · rw [if_pos hx]
  · rw [if_neg hx]

/-- `traceOf` after a status write to an existing job. -/
theorem traceOf_updateJobStatus_self (db : DB) (jid status : String)
    (fin : Option Nat) (cost : Option Int)
    (h : db.jobs.any (fun j => j.id == jid) = true) :
    traceOf (updateJobStatus db jid status fin cost) jid = traceOf db jid ++ [status] := by
  simp [traceOf, log_updateJobStatus_of_exists db jid status fin cost h,
    List.filterMap_append]

@[simp] theorem traceOf_insertAudit (db : DB) (a : AuditEntry) (jid : String) :
    traceOf (insertAudit db a) jid = traceOf db jid := rfl

@[simp] theorem traceOf_updateUserCredits (db : DB) (uid : String) (c : Int) (jid : String) :
    traceOf (updateUserCredits db uid c) jid = traceOf db jid := rfl

/-! `refundCredits` touches only the `users` and `audit` tables. -/

theorem jobs_refundCredits (env : Env) (db : DB) (jid uid : String) (amount : Int) :
    (refundCredits env db jid uid amount).jobs = db.jobs := by
  by_cases h1 : env.refundSelectOk = true
  · by_cases h2 : env.refundUpdateOk = true
    · by_cases h3 : env.refundAuditOk = true <;> simp [refundCredits, h1, h2, h3]
    · simp [refundCredits, h1, h2]
  · simp [refundCredits, h1]

theorem log_refundCredits (env : Env) (db : DB) (jid uid : String) (amount : Int) :
    (refundCredits env db jid uid amount).jobStatusLog = db.jobStatusLog := by
  by_cases h1 : env.refundSelectOk = true
  · by_cases h2 : env.refundUpdateOk = true
    · by_cases h3 : env.refundAuditOk = true <;> simp [refundCredits, h1, h2, h3]
    · simp [refundCredits, h1, h2]
  · simp [refundCredits, h1]

theorem renders_refundCredits (env : Env) (db : DB) (jid uid : String) (amount : Int) :
    (refundCredits env db jid uid amount).renders = db.renders := by
  by_cases h1 : env.refundSelectOk = true
  · by_cases h2 : env.refundUpdateOk = true
    · by_cases h3 : env.refundAuditOk = true <;> simp [refundCredits, h1, h2, h3]
    · simp [refundCredits, h1, h2]
  · simp [refundCredits, h1]

/-- A fully successful refund: read the current balance, add the amount back,
append the audit row. -/
theorem refundCredits_allOk (env : Env) (db : DB) (jid uid : String) (amount : Int)
    (u : UserRow)
    (h1 : env.refundSelectOk = true) (h2 : env.refundUpdateOk = true)
    (h3 : env.refundAuditOk = true)
    (hu : db.users.find? (fun x => x.id == uid) = some u) :
    refundCredits env db jid uid amount
      = insertAudit (updateUserCredits db uid (u.credits + amount))
          (refundEntry uid jid amount) := by
  simp [refundCredits, h1, h2, h3, hu]

/-! `_save_results` touches only storage, renders and the HTTP log. -/

theorem users_saveOne (env : Env) (jid : String) (db : DB) (i : Nat) (img : ImagePayload) :
    (saveOne env jid db i img).1.users = db.users := by
  cases img <;> simp only [saveOne] <;> (repeat' split) <;> rfl

theorem audit_saveOne (env : Env) (jid : String) (db : DB) (i : Nat) (img : ImagePayload) :
    (saveOne env jid db i img).1.audit = db.audit := by
  cases img <;> simp only [saveOne] <;> (repeat' split) <;> rfl

theorem jobs_saveOne (env : Env) (jid : String) (db : DB) (i : Nat) (img : ImagePayload) :
    (saveOne env jid db i img).1.jobs = db.jobs := by
  cases img <;> simp only [saveOne] <;> (repeat' split) <;> rfl

theorem log_saveOne (env : Env) (jid : String) (db : DB) (i : Nat) (img : ImagePayload) :
    (saveOne env jid db i img).1.jobStatusLog = db.jobStatusLog := by
  cases img <;> simp only [saveOne] <;> (repeat' split) <;> rfl

/-- The `saved_count` contribution of one iteration is exactly `imgSaves`. -/
theorem snd_saveOne (env : Env) (jid : String) (db : DB) (i : Nat) (img : ImagePayload) :
    (saveOne env jid db i img).2 = imgSaves env i img := by
  cases img <;> simp only [saveOne, imgSaves] <;> (repeat' split) <;> simp_all

theorem users_saveLoop (env : Env) (jid : String) :
    ∀ (k : Nat) (imgs : List ImagePayload) (db : DB),
      (saveLoop env jid k imgs db).1.users = db.users := by
  intro k imgs
  induction imgs generalizing k with
  | nil => intro db; rfl
  | cons img rest ih => intro db; simp only [saveLoop]; rw [ih, users_saveOne]

theorem audit_saveLoop (env : Env) (jid : String) :
    ∀ (k : Nat) (imgs : List ImagePayload) (db : DB),
      (saveLoop env jid k imgs db).1.audit = db.audit := by
  intro k imgs
  induction imgs generalizing k with
  | nil => intro db; rfl
  | cons img rest ih => intro db; simp only [saveLoop]; rw [ih, audit_saveOne]

theorem jobs_saveLoop (env : Env) (jid : String) :
    ∀ (k : Nat) (imgs : List ImagePayload) (db : DB),
      (saveLoop env jid k imgs db).1.jobs = db.jobs := by
  intro k imgs
  induction imgs generalizing k with
  | nil => intro db; rfl
  | cons img rest ih => intro db; simp only [saveLoop]; rw [ih, jobs_saveOne]

theorem log_saveLoop (env : Env) (jid : String) :
    ∀ (k : Nat) (imgs : List ImagePayload) (db : DB),
      (saveLoop env jid k imgs db).1.jobStatusLog = db.jobStatusLog := by
  intro k imgs
  induction imgs generalizing k with
  | nil => intro db; rfl
  | cons img rest ih => intro db; simp only [saveLoop]; rw [ih, log_saveOne]

/-- `saved_count` is the number of loop iterations whose own remote
operations all succeed — independent of what happened at other indices, which
is the per-image failure isolation of `_save_results`. -/
theorem snd_saveLoop (env : Env) (jid : String) :
    ∀ (k : Nat) (imgs : List ImagePayload) (db : DB),
      (saveLoop env jid k imgs db).2
        = ((imgs.enumFrom k).filter (fun p => imgSaves env p.1 p.2)).length := by
  intro k imgs
  induction imgs generalizing k with
  | nil => intro db; rfl
  | cons img rest ih =>
    intro db
    simp only [saveLoop, List.enumFrom_cons, List.filter_cons]
    rw [ih, snd_saveOne]
    by_cases h : imgSaves env k img = true <;> simp [h, Nat.add_comm]

/-- The bytes one iteration of `_save_results` resolves its payload to:
a string starting with `"http"` is fetched, any other string is
base64-decoded, anything else is used as raw bytes. -/
def payloadBytes (env : Env) (img : ImagePayload) : List Nat :=
  match img with
  | .str s => if strStarts s "http" then env.httpContent s else env.b64decode s
  | .bytes b => b

/-- The HTTP request(s) one iteration of `_save_results` performs. -/
def payloadRequests (img : ImagePayload) : List HttpRequest :=
  match img with
  | .str s => if strStarts s "http" then [{ url := s, timeout_s := 30 }] else []
  | .bytes _ => []

/-- One fully successful iteration of `_save_results`. -/
theorem saveOne_allOk (env : Env) (jid : String) (db : DB) (i : Nat) (img : ImagePayload)
    (hB : env.imgBytesOk i = true) (hU : env.imgUploadOk i = true)
    (hI : env.imgInsertOk i = true) :
    saveOne env jid db i img =
      ({ db with
          storage := db.storage ++
            [{ bucket := RENDERS_BUCKET, path := renderPath jid i,
               contents := payloadBytes env img, content_type := "image/png" }],
          renders := db.renders ++
            [{ job_id := jid, variant := i, thumbnail_path := renderPath jid i }],
          httpLog := db.httpLog ++ payloadRequests img }, true) := by
  rcases img with s | b
  · by_cases hs : strStarts s "http" = true <;>
      simp [saveOne, payloadBytes, payloadRequests, hB, hU, hI, hs]
  · simp [saveOne, payloadBytes, payloadRequests, hU, hI]

/-- A fully successful run of `_save_results` starting at index `k`: one
storage object, one render row and the URL fetches per image, in order, and
`saved_count` is the number of images. -/
theorem saveLoop_allOk (env : Env) (jid : String)
    (hB : ∀ i, env.imgBytesOk i = true) (hU : ∀ i, env.imgUploadOk i = true)
    (hI : ∀ i, env.imgInsertOk i = true) :
    ∀ (k : Nat) (imgs : List ImagePayload) (db : DB),
      saveLoop env jid k imgs db =
        ({ db with
            storage := db.storage ++ (imgs.enumFrom k).map (fun p =>
              { bucket := RENDERS_BUCKET, path := renderPath jid p.1,
                contents := payloadBytes env p.2, content_type := "image/png" }),
            renders := db.renders ++ (imgs.enumFrom k).map (fun p =>
              { job_id := jid, variant := p.1, thumbnail_path := renderPath jid p.1 }),
            httpLog := db.httpLog ++
              ((imgs.enumFrom k).map (fun p => payloadRequests p.2)).flatten },
          imgs.length) := by
  intro k imgs
  induction imgs generalizing k with
  | nil => intro db; simp [saveLoop]
  | cons img rest ih =>
    intro db
    simp only [saveLoop, saveOne_allOk env jid db k img (hB k) (hU k) (hI k)]
    rw [ih]
    simp [List.enumFrom_cons, List.append_assoc, Nat.add_comm]

/-- The `job_info` dict built in `JobProcessor.process` step 3. -/
def jobInfoOf (job : JobRow) (project : ProjectRow) : JobInfo :=
  { quality := job.quality.getD "std", mode := project.mode,
    model := job.model.getD "nano_banana" }

/-- The store right after the deduction steps of `process` succeeded:
status set to `running`, balance lowered, `deduct_credits` audit row
appended. -/
def afterDeduct (db : DB) (jid uid : String) (newBalance required : Int) : DB :=
  insertAudit
    (updateUserCredits (updateJobStatus db jid "running" none none) uid newBalance)
    (deductEntry uid jid required)

/-- The remainder of the `try` body of `process` after a successful
deduction (dispatch, zero-image check, persistence, `succeeded` write). -/
def bodyTail (env : Env) (jid : String) (db2 : DB) (project : ProjectRow)
    (required : Int) (model : String) : BodyOut :=
  match dispatchGenerate env model with
  | .error e => .exn db2 { projectAttr := some project, required_credits := required } e
  | .ok images =>
    if images.isEmpty then
      .exn db2 { projectAttr := some project, required_credits := required } .noImages
    else
      let saved := saveResults env jid db2 images
      if saved.2 == 0 then
        .exn saved.1 { projectAttr := some project, required_credits := required } .saveFailed
      else
        if env.updateSucceededOk then
          .done (updateJobStatus saved.1 jid "succeeded" (some env.now) (some required))
            saved.2 required
        else .exn saved.1 { projectAttr := some project, required_credits := required } .dbError

/-- Master lemma: when every step up to and including the credit deduction
succeeds, the `try` body reaches the state `afterDeduct` and continues with
`bodyTail`. -/
theorem processBody_deducted
    (env : Env) (jid : String) (db : DB) (job : JobRow) (project : ProjectRow)
    (pr : PromptRow) (user : UserRow)
    (h1 : env.fetchJobOk = true) (h2 : env.updateRunningOk = true)
    (h3 : env.fetchProjectOk = true) (h4 : env.fetchPromptOk = true)
    (h5 : env.fetchUserOk = true) (h6 : env.deductUpdateOk = true)
    (h7 : env.deductAuditOk = true)
    (hj : db.jobs.find? (fun x => x.id == jid) = some job)
    (hp : db.projects.find? (fun x => x.id == job.project_id) = some project)
    (hpr : db.prompts.find? (fun x => x.project_id == job.project_id) = some pr)
    (hu : db.users.find? (fun x => x.id == project.user_id) = some user)
    (hcred : ¬ user.credits < env.calculate_job_credits (jobInfoOf job project)) :
    processBody env jid db =
      bodyTail env jid
        (afterDeduct db jid project.user_id
          (user.credits - env.calculate_job_credits (jobInfoOf job project))
          (env.calculate_job_credits (jobInfoOf job project)))
        project (env.calculate_job_credits (jobInfoOf job project))
        (job.model.getD "nano_banana") := by
  simp only [jobInfoOf] at hcred
  simp only [processBody, h1, h2, h3, h4, h5, h6, h7, if_true, hj,
    projects_updateJobStatus, prompts_updateJobStatus, users_updateJobStatus,
    hp, hpr, hu]
  rw [if_neg hcred]
  simp only [bodyTail, afterDeduct, jobInfoOf]

/-- On the insufficient-credits path the `try` body raises before any
write beyond the `running` status update. -/
theorem processBody_insufficient
    (env : Env) (jid : String) (db : DB) (job : JobRow) (project : ProjectRow)
    (pr : PromptRow) (user : UserRow)
    (h1 : env.fetchJobOk = true) (h2 : env.updateRunningOk = true)
    (h3 : env.fetchProjectOk = true) (h4 : env.fetchPromptOk = true)
    (h5 : env.fetchUserOk = true)
    (hj : db.jobs.find? (fun x => x.id == jid) = some job)
    (hp : db.projects.find? (fun x => x.id == job.project_id) = some project)
    (hpr : db.prompts.find? (fun x => x.project_id == job.project_id) = some pr)
    (hu : db.users.find? (fun x => x.id == project.user_id) = some user)
    (hcred : user.credits < env.calculate_job_credits (jobInfoOf job project)) :
    processBody env jid db =
      .exn (updateJobStatus db jid "running" none none)
        { projectAttr := some project, required_credits := 0 } .insufficientCredits := by
  simp only [jobInfoOf] at hcred
  simp only [processBody, h1, h2, h3, h4, h5, if_true, hj,
    projects_updateJobStatus, prompts_updateJobStatus, users_updateJobStatus,
    hp, hpr, hu]
  rw [if_pos hcred]

/-- C3.  For every invocation of `JobProcessor.process` where the user's
current balance is less than the computed cost (and the reads leading to the
check plus the handler's status write succeed), the job aborts with an
insufficient-credits error before any deduction: the balance (indeed the
whole `users` table) is unchanged, zero audit rows are created for the job
(the `audit` table is unchanged), the job is marked `failed`, and no refund
is issued (the returned error is the insufficient-credits exception). -/
theorem c3_insufficient_credits_aborts
    (env : Env) (jid : String) (db : DB) (job : JobRow) (project : ProjectRow)
    (pr : PromptRow) (user : UserRow)
    (h1 : env.fetchJobOk = true) (h2 : env.updateRunningOk = true)
    (h3 : env.fetchProjectOk = true) (h4 : env.fetchPromptOk = true)
    (h5 : env.fetchUserOk = true) (hF : env.updateFailedOk = true)
    (hj : db.jobs.find? (fun x => x.id == jid) = some job)
    (hp : db.projects.find? (fun x => x.id == job.project_id) = some project)
    (hpr : db.prompts.find? (fun x => x.project_id == job.project_id) = some pr)
    (hu : db.users.find? (fun x => x.id == project.user_id) = some user)
    (hcred : user.credits < env.calculate_job_credits (jobInfoOf job project)) :
    (process env jid db).1.users = db.users ∧
    (process env jid db).1.audit = db.audit ∧
    jobStatus (process env jid db).1 jid = some "failed" ∧
    (process env jid db).2 =
      .returned { success := false, images_saved := none,
                  error := some .insufficientCredits } := by
  have hbody := processBody_insufficient env jid db job project pr user
    h1 h2 h3 h4 h5 hj hp hpr hu hcred
  have f1 := find?_jobs_updateJobStatus db jid "running" none none job hj
  have f2 := find?_jobs_updateJobStatus (updateJobStatus db jid "running" none none)
    jid "failed" (some env.now) none _ f1
  unfold process handleExn
  rw [hbody]
  simp only [hF, if_true]
  refine ⟨rfl, rfl, ?_, ?_⟩
  · simp only [gt_iff_lt, lt_self_iff_false, if_false, jobStatus, f2, Option.map_some']
  · simp only [gt_iff_lt, lt_self_iff_false, if_false]

/-! ## Concrete fixtures used by the witnesses -/

/-- An environment where every remote operation succeeds, the cost function
is the spec's example value 10, and the Gemini-family provider returns two
raw-byte images. -/
def envAll : Env :=
  { fetchJobOk := true, updateRunningOk := true, fetchProjectOk := true,
    fetchPromptOk := true, fetchUserOk := true,
    calculate_job_credits := fun _ => 10,
    deductUpdateOk := true, deductAuditOk := true,
    assetDownload := fun _ => none,
    genGemini := some [.bytes [1], .bytes [2]], genBytedance := none, genFal := none,
    imgBytesOk := fun _ => true, httpContent := fun _ => [7],
    b64decode := fun _ => [8],
    imgUploadOk := fun _ => true, imgInsertOk := fun _ => true,
    updateSucceededOk := true, updateFailedOk := true,
    refundSelectOk := true, refundUpdateOk := true, refundAuditOk := true,
    now := 99 }

def projP1 : ProjectRow :=
  { id := "p1", user_id := "u1", mode := "design", platform := "youtube",
    width := 1280, height := 720, status := "draft" }

def promptP1 : PromptRow :=
  { project_id := "p1", raw := { refs := [] }, model_pref := some "nano_banana" }

def jobJ1 : JobRow :=
  { id := "j1", project_id := "p1", model := some "nano_banana",
    quality := some "std", status := "queued", cost_credits := some 10,
    finished_at := none, provider := none, provider_meta_provider := some "nano_banana" }

/-- A store holding one user with 50 credits and the job `j1` queued. -/
def dbQueued : DB :=
  { users := [{ id := "u1", credits := 50 }], projects := [projP1],
    prompts := [promptP1], jobs := [jobJ1], audit := [], renders := [],
    storage := [], httpLog := [], jobStatusLog := [("j1", "queued")] }

/-- Like `dbQueued` but the user holds only 5 credits. -/
def dbPoor : DB :=
  { users := [{ id := "u1", credits := 5 }], projects := [projP1],
    prompts := [promptP1], jobs := [jobJ1], audit := [], renders := [],
    storage := [], httpLog := [], jobStatusLog := [("j1", "queued")] }

/-- Witness for C3: user with 5 credits, job costing 10. -/
theorem c3_witness :
    (process envAll "j1" dbPoor).1.users = dbPoor.users ∧
    (process envAll "j1" dbPoor).1.audit = dbPoor.audit ∧
    jobStatus (process envAll "j1" dbPoor).1 "j1" = some "failed" ∧
    (process envAll "j1" dbPoor).2 =
      .returned { success := false, images_saved := none,
                  error := some .insufficientCredits } :=
  c3_insufficient_credits_aborts envAll "j1" dbPoor jobJ1 projP1 promptP1
    { id := "u1", credits := 5 } rfl rfl rfl rfl rfl rfl rfl rfl rfl rfl (by decide)

/-- Writing a status to an existing job makes that status the stored one. -/
theorem jobStatus_updateJobStatus_self (db : DB) (jid s : String)
    (fin : Option Nat) (cost : Option Int) (j : JobRow)
    (h : db.jobs.find? (fun x => x.id == jid) = some j) :
    jobStatus (updateJobStatus db jid s fin cost) jid = some s := by
  simp [jobStatus, find?_jobs_updateJobStatus db jid s fin cost j h]

/-- C10 (implicit).  In `_validate_and_deduct_credits` the balance update
and the `deduct_credits` audit insert are two separate writes with the
balance written first, and `self.required_credits` is assigned only after
the method returns.  Hence when the audit insert raises after the balance
update succeeded, the user's balance has been reduced by the cost while the
failure handler — which refunds only when `self.required_credits > 0` —
issues no refund, and no audit row at all (in particular no
`deduct_credits` row) exists for the job; the job is marked `failed`. -/
theorem c10_audit_insert_failure_loses_credits
    (env : Env) (jid : String) (db : DB) (job : JobRow) (project : ProjectRow)
    (pr : PromptRow) (user : UserRow)
    (h1 : env.fetchJobOk = true) (h2 : env.updateRunningOk = true)
    (h3 : env.fetchProjectOk = true) (h4 : env.fetchPromptOk = true)
    (h5 : env.fetchUserOk = true) (h6 : env.deductUpdateOk = true)
    (h7 : env.deductAuditOk = false) (hF : env.updateFailedOk = true)
    (hj : db.jobs.find? (fun x => x.id == jid) = some job)
    (hp : db.projects.find? (fun x => x.id == job.project_id) = some project)
    (hpr : db.prompts.find? (fun x => x.project_id == job.project_id) = some pr)
    (hu : db.users.find? (fun x => x.id == project.user_id) = some user)
    (hcred : ¬ user.credits < env.calculate_job_credits (jobInfoOf job project)) :
    userCredits (process env jid db).1 project.user_id
      = some (user.credits - env.calculate_job_credits (jobInfoOf job project)) ∧
    (process env jid db).1.audit = db.audit ∧
    jobStatus (process env jid db).1 jid = some "failed" ∧
    (process env jid db).2 =
      .returned { success := false, images_saved := none, error := some .dbError } := by
  have hbody : processBody env jid db =
      .exn (updateUserCredits (updateJobStatus db jid "running" none none)
              project.user_id
              (user.credits - env.calculate_job_credits (jobInfoOf job project)))
        { projectAttr := some project, required_credits := 0 } .dbError := by
    simp only [jobInfoOf] at hcred ⊢
    simp only [processBody, h1, h2, h3, h4, h5, h6, h7, if_true, hj,
      projects_updateJobStatus, prompts_updateJobStatus, users_updateJobStatus,
      hp, hpr, hu, Bool.false_eq_true, if_false]
    rw [if_neg hcred]
  have f1 := find?_jobs_updateJobStatus db jid "running" none none job hj
  have fu := find?_users_updateUserCredits (updateJobStatus db jid "running" none none)
    project.user_id (user.credits - env.calculate_job_credits (jobInfoOf job project)) user hu
  unfold process handleExn
  rw [hbody]
  simp only [hF, if_true, gt_iff_lt, lt_self_iff_false, if_false]
  refine ⟨?_, ?_, ?_, ?_⟩
  · simp only [userCredits, users_updateJobStatus, fu, Option.map_some']
  · trivial
  · exact jobStatus_updateJobStatus_self _ jid "failed" (some env.now) none _
      (by rw [jobs_updateUserCredits]; exact f1)
  · trivial

/-- Replace the success flags of the three remote operations inside
`_refund_credits` (its balance read, balance write and audit insert). -/
def withRefundFlags (env : Env) (r1 r2 r3 : Bool) : Env :=
  { env with refundSelectOk := r1, refundUpdateOk := r2, refundAuditOk := r3 }

@[simp] theorem calc_withRefundFlags (env : Env) (r1 r2 r3 : Bool) :
    (withRefundFlags env r1 r2 r3).calculate_job_credits = env.calculate_job_credits := rfl

@[simp] theorem now_withRefundFlags (env : Env) (r1 r2 r3 : Bool) :
    (withRefundFlags env r1 r2 r3).now = env.now := rfl

@[simp] theorem updateFailedOk_withRefundFlags (env : Env) (r1 r2 r3 : Bool) :
    (withRefundFlags env r1 r2 r3).updateFailedOk = env.updateFailedOk := rfl

@[simp] theorem dispatchGenerate_withRefundFlags (env : Env) (r1 r2 r3 : Bool) (m : String) :
    dispatchGenerate (withRefundFlags env r1 r2 r3) m = dispatchGenerate env m := rfl

/-- C9.  `_refund_credits` is best-effort: whatever its own reads and writes
do (`r1 r2 r3` range over all combinations of their success flags), an
exception inside it is caught and never re-raised to the orchestrator —
`process` still returns its failure dict — and a refund failure does not
change the job's status, which remains `failed`. -/
theorem c9_refund_failures_swallowed
    (env : Env) (r1 r2 r3 : Bool) (jid : String) (db : DB) (job : JobRow)
    (project : ProjectRow) (pr : PromptRow) (user : UserRow) (e : PyErr)
    (h1 : env.fetchJobOk = true) (h2 : env.updateRunningOk = true)
    (h3 : env.fetchProjectOk = true) (h4 : env.fetchPromptOk = true)
    (h5 : env.fetchUserOk = true) (h6 : env.deductUpdateOk = true)
    (h7 : env.deductAuditOk = true) (hF : env.updateFailedOk = true)
    (hj : db.jobs.find? (fun x => x.id == jid) = some job)
    (hp : db.projects.find? (fun x => x.id == job.project_id) = some project)
    (hpr : db.prompts.find? (fun x => x.project_id == job.project_id) = some pr)
    (hu : db.users.find? (fun x => x.id == project.user_id) = some user)
    (hcred : ¬ user.credits < env.calculate_job_credits (jobInfoOf job project))
    (hgen : dispatchGenerate env (job.model.getD "nano_banana") = .error e) :
    (process (withRefundFlags env r1 r2 r3) jid db).2 =
      .returned { success := false, images_saved := none, error := some e } ∧
    jobStatus (process (withRefundFlags env r1 r2 r3) jid db).1 jid = some "failed" := by
  have hbody := processBody_deducted (withRefundFlags env r1 r2 r3) jid db job project pr user
    h1 h2 h3 h4 h5 h6 h7 hj hp hpr hu hcred
  have f1 := find?_jobs_updateJobStatus db jid "running" none none job hj
  obtain ⟨jR, ff⟩ : ∃ jR, (afterDeduct db jid project.user_id
      (user.credits - env.calculate_job_credits (jobInfoOf job project))
      (env.calculate_job_credits (jobInfoOf job project))).jobs.find?
        (fun x => x.id == jid) = some jR :=
    ⟨_, by simp only [afterDeduct, jobs_insertAudit, jobs_updateUserCredits]; exact f1⟩
  unfold process handleExn
  rw [hbody]
  unfold bodyTail
  simp only [calc_withRefundFlags, now_withRefundFlags,
    updateFailedOk_withRefundFlags, dispatchGenerate_withRefundFlags]
  rw [hgen]
  simp only [hF, if_true]
  constructor
  · trivial
  · by_cases hc : env.calculate_job_credits (jobInfoOf job project) > 0
    · rw [if_pos hc]
      have hs := jobStatus_updateJobStatus_self
        (afterDeduct db jid project.user_id
          (user.credits - env.calculate_job_credits (jobInfoOf job project))
          (env.calculate_job_credits (jobInfoOf job project)))
        jid "failed" (some env.now) none _ ff
      simpa [jobStatus, jobs_refundCredits] using hs
    · rw [if_neg hc]
      exact jobStatus_updateJobStatus_self _ jid "failed" (some env.now) none _ ff

@[simp] theorem jobStatus_insertAudit (db : DB) (a : AuditEntry) (jid : String) :
    jobStatus (insertAudit db a) jid = jobStatus db jid := rfl

@[simp] theorem jobStatus_updateUserCredits (db : DB) (uid : String) (c : Int) (jid : String) :
    jobStatus (updateUserCredits db uid c) jid = jobStatus db jid := rfl

theorem jobStatus_refundCredits (env : Env) (db : DB) (jid uid : String)
    (amt : Int) (jid' : String) :
    jobStatus (refundCredits env db jid uid amt) jid' = jobStatus db jid' := by
  simp [jobStatus, jobs_refundCredits]

/-- Writing a finish timestamp to an existing job makes it the stored one. -/
theorem jobFinishedAt_updateJobStatus_self (db : DB) (jid s : String)
    (t : Nat) (cost : Option Int) (j : JobRow)
    (h : db.jobs.find? (fun x => x.id == jid) = some j) :
    jobFinishedAt (updateJobStatus db jid s (some t) cost) jid = some (some t) := by
  simp [jobFinishedAt, find?_jobs_updateJobStatus db jid s (some t) cost j h]

theorem jobFinishedAt_refundCredits (env : Env) (db : DB) (jid uid : String)
    (amt : Int) (jid' : String) :
    jobFinishedAt (refundCredits env db jid uid amt) jid' = jobFinishedAt db jid' := by
  simp [jobFinishedAt, jobs_refundCredits]

/-- The `except` handler, when its own writes succeed and credits were
deducted: mark `failed` with the timestamp, restore the balance read at
refund time, append the refund audit row, return the failure dict. -/
theorem handleExn_refundOk (env : Env) (jid : String) (dbX : DB)
    (project : ProjectRow) (c : Int) (e : PyErr) (uD : UserRow)
    (hF : env.updateFailedOk = true) (hr1 : env.refundSelectOk = true)
    (hr2 : env.refundUpdateOk = true) (hr3 : env.refundAuditOk = true)
    (hpos : (0 : Int) < c)
    (huD : dbX.users.find? (fun x => x.id == project.user_id) = some uD) :
    handleExn env jid dbX { projectAttr := some project, required_credits := c } e =
      (insertAudit
        (updateUserCredits (updateJobStatus dbX jid "failed" (some env.now) none)
          project.user_id (uD.credits + c))
        (refundEntry project.user_id jid c),
       .returned { success := false, images_saved := none, error := some e }) := by
  unfold handleExn
  simp only [hF, if_true]
  rw [if_pos hpos]
  rw [refundCredits_allOk env _ jid project.user_id c uD hr1 hr2 hr3
    (by rw [users_updateJobStatus]; exact huD)]

/-- C1.  For every invocation of `JobProcessor.process` in which the credit
deduction completed and a later step raises (provider error, zero-images
condition, or persistence failure of every returned image), with the
failure-path writes succeeding: the job is marked `failed` with a finish
timestamp, the audit rows appended for the job are exactly the
`deduct_credits` row followed by one `refund_credits` row with delta
`+cost`, and the user's balance after the refund equals the balance
immediately before the deduction. -/
theorem c1_refund_on_failure_after_deduction
    (env : Env) (jid : String) (db : DB) (job : JobRow) (project : ProjectRow)
    (pr : PromptRow) (user : UserRow)
    (h1 : env.fetchJobOk = true) (h2 : env.updateRunningOk = true)
    (h3 : env.fetchProjectOk = true) (h4 : env.fetchPromptOk = true)
    (h5 : env.fetchUserOk = true) (h6 : env.deductUpdateOk = true)
    (h7 : env.deductAuditOk = true) (hF : env.updateFailedOk = true)
    (hr1 : env.refundSelectOk = true) (hr2 : env.refundUpdateOk = true)
    (hr3 : env.refundAuditOk = true)
    (hj : db.jobs.find? (fun x => x.id == jid) = some job)
    (hp : db.projects.find? (fun x => x.id == job.project_id) = some project)
    (hpr : db.prompts.find? (fun x => x.project_id == job.project_id) = some pr)
    (hu : db.users.find? (fun x => x.id == project.user_id) = some user)
    (hcred : ¬ user.credits < env.calculate_job_credits (jobInfoOf job project))
    (hpos : (0 : Int) < env.calculate_job_credits (jobInfoOf job project))
    (hfail :
      dispatchGenerate env (job.model.getD "nano_banana") = .error .providerError ∨
      dispatchGenerate env (job.model.getD "nano_banana") = .ok [] ∨
      ∃ imgs, dispatchGenerate env (job.model.getD "nano_banana") = .ok imgs ∧
        imgs.isEmpty = false ∧
        ((imgs.enumFrom 0).filter (fun p => imgSaves env p.1 p.2)).length = 0) :
    (∃ e, (process env jid db).2 =
      .returned { success := false, images_saved := none, error := some e }) ∧
    jobStatus (process env jid db).1 jid = some "failed" ∧
    jobFinishedAt (process env jid db).1 jid = some (some env.now) ∧
    (process env jid db).1.audit = db.audit ++
      [deductEntry project.user_id jid (env.calculate_job_credits (jobInfoOf job project)),
       refundEntry project.user_id jid (env.calculate_job_credits (jobInfoOf job project))] ∧
    userCredits (process env jid db).1 project.user_id = some user.credits := by
  have hbody := processBody_deducted env jid db job project pr user
    h1 h2 h3 h4 h5 h6 h7 hj hp hpr hu hcred
  have f1 := find?_jobs_updateJobStatus db jid "running" none none job hj
  obtain ⟨jR, ff⟩ : ∃ jR, (afterDeduct db jid project.user_id
      (user.credits - env.calculate_job_credits (jobInfoOf job project))
      (env.calculate_job_credits (jobInfoOf job project))).jobs.find?
        (fun x => x.id == jid) = some jR :=
    ⟨_, by simp only [afterDeduct, jobs_insertAudit, jobs_updateUserCredits]; exact f1⟩
  have huD : (afterDeduct db jid project.user_id
      (user.credits - env.calculate_job_credits (jobInfoOf job project))
      (env.calculate_job_credits (jobInfoOf job project))).users.find?
        (fun x => x.id == project.user_id)
      = some { user with
               credits := user.credits - env.calculate_job_credits (jobInfoOf job project) } := by
    simp only [afterDeduct, users_insertAudit]
    exact find?_users_updateUserCredits _ _ _ user (by rw [users_updateJobStatus]; exact hu)
  have haud : (afterDeduct db jid project.user_id
      (user.credits - env.calculate_job_credits (jobInfoOf job project))
      (env.calculate_job_credits (jobInfoOf job project))).audit
      = db.audit ++ [deductEntry project.user_id jid
          (env.calculate_job_credits (jobInfoOf job project))] := by
    simp [afterDeduct]
  -- the state the handler receives, uniform over the three failure shapes
  obtain ⟨dbX, e, hexn, hXusers, hXaudit, hXjobs⟩ :
      ∃ dbX e, processBody env jid db =
          .exn dbX { projectAttr := some project,
                     required_credits := env.calculate_job_credits (jobInfoOf job project) } e ∧
        dbX.users = (afterDeduct db jid project.user_id
          (user.credits - env.calculate_job_credits (jobInfoOf job project))
          (env.calculate_job_credits (jobInfoOf job project))).users ∧
        dbX.audit = (afterDeduct db jid project.user_id
          (user.credits - env.calculate_job_credits (jobInfoOf job project))
          (env.calculate_job_credits (jobInfoOf job project))).audit ∧
        dbX.jobs = (afterDeduct db jid project.user_id
          (user.credits - env.calculate_job_credits (jobInfoOf job project))
          (env.calculate_job_credits (jobInfoOf job project))).jobs := by
    rcases hfail with hgen | hgen | ⟨imgs, hgen, hne, hcount⟩
    · exact ⟨_, _, by rw [hbody]; unfold bodyTail; rw [hgen], rfl, rfl, rfl⟩
    · exact ⟨_, _, by rw [hbody]; unfold bodyTail; rw [hgen]; rfl, rfl, rfl, rfl⟩
    · refine ⟨(saveResults env jid (afterDeduct db jid project.user_id
          (user.credits - env.calculate_job_credits (jobInfoOf job project))
          (env.calculate_job_credits (jobInfoOf job project))) imgs).1,
        .saveFailed, ?_, ?_, ?_, ?_⟩
      · have hsv : (saveResults env jid (afterDeduct db jid project.user_id
            (user.credits - env.calculate_job_credits (jobInfoOf job project))
            (env.calculate_job_credits (jobInfoOf job project))) imgs).2 = 0 := by
          rw [saveResults, snd_saveLoop]; exact hcount
        rw [hbody]; unfold bodyTail
        simp only [hgen, hne, Bool.false_eq_true, if_false, hsv, beq_self_eq_true, if_true]
      · exact users_saveLoop env jid 0 imgs _
      · exact audit_saveLoop env jid 0 imgs _
      · exact jobs_saveLoop env jid 0 imgs _
  have hff : dbX.jobs.find? (fun x => x.id == jid) = some jR := by rw [hXjobs]; exact ff
  have huDX : dbX.users.find? (fun x => x.id == project.user_id)
      = some { user with
               credits := user.credits - env.calculate_job_credits (jobInfoOf job project) } := by
    rw [hXusers]; exact huD
  have hhandle := handleExn_refundOk env jid dbX project
    (env.calculate_job_credits (jobInfoOf job project)) e _ hF hr1 hr2 hr3 hpos huDX
  have hproc : process env jid db =
      (insertAudit
        (updateUserCredits (updateJobStatus dbX jid "failed" (some env.now) none)
          project.user_id
          (user.credits - env.calculate_job_credits (jobInfoOf job project)
            + env.calculate_job_credits (jobInfoOf job project)))
        (refundEntry project.user_id jid (env.calculate_job_credits (jobInfoOf job project))),
       .returned { success := false, images_saved := none, error := some e }) := by
    unfold process
    rw [hexn]
    show handleExn env jid dbX _ e = _
    rw [hhandle]
  refine ⟨⟨e, by rw [hproc]⟩, ?_, ?_, ?_, ?_⟩
  · rw [hproc]
    simp only [jobStatus_insertAudit, jobStatus_updateUserCredits]
    exact jobStatus_updateJobStatus_self dbX jid "failed" (some env.now) none jR hff
  · rw [hproc]
    show jobFinishedAt (insertAudit (updateUserCredits _ _ _) _) jid = some (some env.now)
    have : jobFinishedAt (updateJobStatus dbX jid "failed" (some env.now) none) jid
        = some (some env.now) :=
      jobFinishedAt_updateJobStatus_self dbX jid "failed" env.now none jR hff
    simpa [jobFinishedAt] using this
  · rw [hproc]
    simp only [audit_insertAudit, audit_updateUserCredits, audit_updateJobStatus,
      hXaudit, haud, List.append_assoc]
    rfl
  · rw [hproc]
    have hfind := find?_users_updateUserCredits
      (updateJobStatus dbX jid "failed" (some env.now) none) project.user_id
      (user.credits - env.calculate_job_credits (jobInfoOf job project)
        + env.calculate_job_credits (jobInfoOf job project))
      _ (by rw [users_updateJobStatus]; exact huDX)
    simp only [userCredits, users_insertAudit, hfind, Option.map_some']
    congr 1
    exact sub_add_cancel user.credits (env.calculate_job_credits (jobInfoOf job project))

/-- Like `envAll` but the Gemini-family provider raises. -/
def envGenFail : Env := { envAll with genGemini := none }

/-- Like `envAll` but the audit insert of the deduction raises. -/
def envNoDeductAudit : Env := { envAll with deductAuditOk := false }

/-- Witness for C1: provider error after a completed deduction on a 50-credit
balance with cost 10. -/
theorem c1_witness :
    (∃ e, (process envGenFail "j1" dbQueued).2 =
      .returned { success := false, images_saved := none, error := some e }) ∧
    jobStatus (process envGenFail "j1" dbQueued).1 "j1" = some "failed" ∧
    jobFinishedAt (process envGenFail "j1" dbQueued).1 "j1" = some (some 99) ∧
    (process envGenFail "j1" dbQueued).1.audit =
      dbQueued.audit ++ [deductEntry "u1" "j1" 10, refundEntry "u1" "j1" 10] ∧
    userCredits (process envGenFail "j1" dbQueued).1 "u1" = some 50 :=
  c1_refund_on_failure_after_deduction envGenFail "j1" dbQueued jobJ1 projP1 promptP1
    { id := "u1", credits := 50 } rfl rfl rfl rfl rfl rfl rfl rfl rfl rfl rfl
    rfl rfl rfl rfl (by decide) (by decide) (Or.inl rfl)

/-- Witness for C9: the provider raises and all three refund operations
fail; `process` still returns and the job stays `failed`. -/
theorem c9_witness :
    (process (withRefundFlags envGenFail false false false) "j1" dbQueued).2 =
      .returned { success := false, images_saved := none, error := some .providerError } ∧
    jobStatus (process (withRefundFlags envGenFail false false false) "j1" dbQueued).1 "j1"
      = some "failed" :=
  c9_refund_failures_swallowed envGenFail false false false "j1" dbQueued jobJ1 projP1
    promptP1 { id := "u1", credits := 50 } .providerError
    rfl rfl rfl rfl rfl rfl rfl rfl rfl rfl rfl rfl (by decide) rfl

/-- Witness for C10: the deduction's audit insert raises after the balance
write went through; the balance stays reduced and no audit row exists. -/
theorem c10_witness :
    userCredits (process envNoDeductAudit "j1" dbQueued).1 "u1" = some 40 ∧
    (process envNoDeductAudit "j1" dbQueued).1.audit = dbQueued.audit ∧
    jobStatus (process envNoDeductAudit "j1" dbQueued).1 "j1" = some "failed" ∧
    (process envNoDeductAudit "j1" dbQueued).2 =
      .returned { success := false, images_saved := none, error := some .dbError } :=
  c10_audit_insert_failure_loses_credits envNoDeductAudit "j1" dbQueued jobJ1 projP1
    promptP1 { id := "u1", credits := 50 } rfl rfl rfl rfl rfl rfl rfl rfl rfl rfl rfl rfl
    (by decide)

/-- Whatever state and attributes the handler receives, if its status write
succeeds the job ends up `failed` (the refund, attempted or not, successful
or not, never touches the `jobs` table). -/
theorem handleExn_status (env : Env) (jid : String) (dbX : DB) (attrs : Attrs)
    (e : PyErr) (hF : env.updateFailedOk = true) (jX : JobRow)
    (hfind : dbX.jobs.find? (fun x => x.id == jid) = some jX) :
    jobStatus (handleExn env jid dbX attrs e).1 jid = some "failed" := by
  unfold handleExn
  simp only [hF, if_true]
  by_cases hc : attrs.required_credits > 0
  · rw [if_pos hc]
    cases hpa : attrs.projectAttr with
    | none =>
      simp only
      exact jobStatus_updateJobStatus_self dbX jid "failed" (some env.now) none jX hfind
    | some p =>
      simp only
      rw [jobStatus_refundCredits]
      exact jobStatus_updateJobStatus_self dbX jid "failed" (some env.now) none jX hfind
  · rw [if_neg hc]
    exact jobStatus_updateJobStatus_self dbX jid "failed" (some env.now) none jX hfind

/-- The handler always returns the failure dict when its status write
succeeds. -/
theorem handleExn_outcome (env : Env) (jid : String) (dbX : DB) (attrs : Attrs)
    (e : PyErr) (hF : env.updateFailedOk = true) :
    (handleExn env jid dbX attrs e).2 =
      .returned { success := false, images_saved := none, error := some e } := by
  unfold handleExn
  simp only [hF, if_true]

/-- C7.  Per-image isolation and the success threshold: `saved_count` is the
number of indices whose own persistence operations all succeed — a failure at
one index never suppresses the others — and, when the provider returned
`images`, the whole job is marked `failed` exactly when the provider
returned zero images or zero of them persisted; if at least one image
persisted, the job is marked `succeeded`. -/
theorem c7_per_image_isolation_and_success_threshold
    (env : Env) (jid : String) (db : DB) (job : JobRow) (project : ProjectRow)
    (pr : PromptRow) (user : UserRow) (images : List ImagePayload)
    (h1 : env.fetchJobOk = true) (h2 : env.updateRunningOk = true)
    (h3 : env.fetchProjectOk = true) (h4 : env.fetchPromptOk = true)
    (h5 : env.fetchUserOk = true) (h6 : env.deductUpdateOk = true)
    (h7 : env.deductAuditOk = true) (hS : env.updateSucceededOk = true)
    (hF : env.updateFailedOk = true)
    (hj : db.jobs.find? (fun x => x.id == jid) = some job)
    (hp : db.projects.find? (fun x => x.id == job.project_id) = some project)
    (hpr : db.prompts.find? (fun x => x.project_id == job.project_id) = some pr)
    (hu : db.users.find? (fun x => x.id == project.user_id) = some user)
    (hcred : ¬ user.credits < env.calculate_job_credits (jobInfoOf job project))
    (hgen : dispatchGenerate env (job.model.getD "nano_banana") = .ok images) :
    (saveResults env jid db images).2 =
      ((images.enumFrom 0).filter (fun p => imgSaves env p.1 p.2)).length ∧
    jobStatus (process env jid db).1 jid =
      some (if images.isEmpty
              ∨ ((images.enumFrom 0).filter (fun p => imgSaves env p.1 p.2)).length = 0
            then "failed" else "succeeded") := by
  refine ⟨by rw [saveResults, snd_saveLoop], ?_⟩
  have hbody := processBody_deducted env jid db job project pr user
    h1 h2 h3 h4 h5 h6 h7 hj hp hpr hu hcred
  have f1 := find?_jobs_updateJobStatus db jid "running" none none job hj
  obtain ⟨jR, ff⟩ : ∃ jR, (afterDeduct db jid project.user_id
      (user.credits - env.calculate_job_credits (jobInfoOf job project))
      (env.calculate_job_credits (jobInfoOf job project))).jobs.find?
        (fun x => x.id == jid) = some jR :=
    ⟨_, by simp only [afterDeduct, jobs_insertAudit, jobs_updateUserCredits]; exact f1⟩
  by_cases hne : images.isEmpty = true
  · have hexn : processBody env jid db =
        .exn (afterDeduct db jid project.user_id
          (user.credits - env.calculate_job_credits (jobInfoOf job project))
          (env.calculate_job_credits (jobInfoOf job project)))
          { projectAttr := some project,
            required_credits := env.calculate_job_credits (jobInfoOf job project) }
          .noImages := by
      rw [hbody]; unfold bodyTail
      simp only [hgen, hne, if_true]
    unfold process
    rw [hexn]
    show jobStatus (handleExn env jid _ _ _).1 jid = _
    rw [if_pos (Or.inl hne)]
    exact handleExn_status env jid _ _ _ hF jR ff
  · have hsv : (saveResults env jid (afterDeduct db jid project.user_id
        (user.credits - env.calculate_job_credits (jobInfoOf job project))
        (env.calculate_job_credits (jobInfoOf job project))) images).2 =
        ((images.enumFrom 0).filter (fun p => imgSaves env p.1 p.2)).length := by
      rw [saveResults, snd_saveLoop]
    have ffS : (saveResults env jid (afterDeduct db jid project.user_id
        (user.credits - env.calculate_job_credits (jobInfoOf job project))
        (env.calculate_job_credits (jobInfoOf job project))) images).1.jobs.find?
          (fun x => x.id == jid) = some jR := by
      rw [saveResults, jobs_saveLoop]; exact ff
    by_cases hz : ((images.enumFrom 0).filter (fun p => imgSaves env p.1 p.2)).length = 0
    · have hexn : processBody env jid db =
          .exn (saveResults env jid (afterDeduct db jid project.user_id
            (user.credits - env.calculate_job_credits (jobInfoOf job project))
            (env.calculate_job_credits (jobInfoOf job project))) images).1
            { projectAttr := some project,
              required_credits := env.calculate_job_credits (jobInfoOf job project) }
            .saveFailed := by
        rw [hbody]; unfold bodyTail
        simp only [hgen, hne, Bool.false_eq_true, if_false, hsv, hz,
          beq_self_eq_true, if_true]
      unfold process
      rw [hexn]
      show jobStatus (handleExn env jid _ _ _).1 jid = _
      rw [if_pos (Or.inr hz)]
      exact handleExn_status env jid _ _ _ hF jR ffS
    · have hdone : processBody env jid db =
          .done (updateJobStatus (saveResults env jid (afterDeduct db jid project.user_id
              (user.credits - env.calculate_job_credits (jobInfoOf job project))
              (env.calculate_job_credits (jobInfoOf job project))) images).1
              jid "succeeded" (some env.now)
              (some (env.calculate_job_credits (jobInfoOf job project))))
            (saveResults env jid (afterDeduct db jid project.user_id
              (user.credits - env.calculate_job_credits (jobInfoOf job project))
              (env.calculate_job_credits (jobInfoOf job project))) images).2
            (env.calculate_job_credits (jobInfoOf job project)) := by
        rw [hbody]; unfold bodyTail
        simp only [hgen, hne, Bool.false_eq_true, if_false, hsv, hS, if_true]
        rw [if_neg (by simpa using hz)]
      unfold process
      rw [hdone]
      show jobStatus (updateJobStatus _ jid "succeeded" (some env.now) _) jid = _
      rw [if_neg (fun hor => hor.elim hne hz)]
      exact jobStatus_updateJobStatus_self _ jid "succeeded" (some env.now) _ jR ffS

/-- Like `envAll` but the render-row insert fails for variant 0 only. -/
def envHalfSave : Env := { envAll with imgInsertOk := fun i => i != 0 }

/-- Witness for C7: two images, the first one's render insert fails, the
second persists; the count is 1 and the job still succeeds. -/
theorem c7_witness :
    (saveResults envHalfSave "j1" dbQueued [.bytes [1], .bytes [2]]).2 = 1 ∧
    jobStatus (process envHalfSave "j1" dbQueued).1 "j1" = some "succeeded" :=
  c7_per_image_isolation_and_success_threshold envHalfSave "j1" dbQueued jobJ1 projP1
    promptP1 { id := "u1", credits := 50 } [.bytes [1], .bytes [2]]
    rfl rfl rfl rfl rfl rfl rfl rfl rfl rfl rfl rfl rfl (by decide) rfl

/-- C8.  For each image payload handled by `_save_results` (with its remote
operations succeeding): a string starting with `"http"` is fetched over HTTP
with timeout 30 seconds, any other string is base64-decoded, a non-string
payload is used as raw bytes; the bytes are uploaded to the renders bucket
under `renders/{job_id}_{i}.png` with `i` the zero-based variant index, and
a render row linking job id, variant index and that path is inserted. -/
theorem c8_payload_persistence
    (env : Env) (jid : String) (db : DB) (images : List ImagePayload)
    (hB : ∀ i, env.imgBytesOk i = true) (hU : ∀ i, env.imgUploadOk i = true)
    (hI : ∀ i, env.imgInsertOk i = true) :
    saveResults env jid db images =
      ({ db with
          storage := db.storage ++ (images.enumFrom 0).map (fun p =>
            { bucket := RENDERS_BUCKET, path := renderPath jid p.1,
              contents := payloadBytes env p.2, content_type := "image/png" }),
          renders := db.renders ++ (images.enumFrom 0).map (fun p =>
            { job_id := jid, variant := p.1, thumbnail_path := renderPath jid p.1 }),
          httpLog := db.httpLog ++
            ((images.enumFrom 0).map (fun p => payloadRequests p.2)).flatten },
        images.length) :=
  saveLoop_allOk env jid hB hU hI 0 images db

/-- Witness for C8: one URL payload, one base64 payload, one raw-byte
payload, persisted under variant indices 0, 1, 2. -/
theorem c8_witness :
    saveResults envAll "j9" dbQueued
      [.str "http://img.example/a.png", .str "QUJD", .bytes [1, 2, 3]] =
      ({ dbQueued with
          storage := dbQueued.storage ++
            [{ bucket := "renders", path := "renders/j9_0.png", contents := [7],
               content_type := "image/png" },
             { bucket := "renders", path := "renders/j9_1.png", contents := [8],
               content_type := "image/png" },
             { bucket := "renders", path := "renders/j9_2.png", contents := [1, 2, 3],
               content_type := "image/png" }],
          renders := dbQueued.renders ++
            [{ job_id := "j9", variant := 0, thumbnail_path := "renders/j9_0.png" },
             { job_id := "j9", variant := 1, thumbnail_path := "renders/j9_1.png" },
             { job_id := "j9", variant := 2, thumbnail_path := "renders/j9_2.png" }],
          httpLog := dbQueued.httpLog ++
            [{ url := "http://img.example/a.png", timeout_s := 30 }] }, 3) :=
  c8_payload_persistence envAll "j9" dbQueued
    [.str "http://img.example/a.png", .str "QUJD", .bytes [1, 2, 3]]
    (fun _ => rfl) (fun _ => rfl) (fun _ => rfl)

theorem traceOf_refundCredits (env : Env) (db : DB) (jid uid : String)
    (amt : Int) (jid' : String) :
    traceOf (refundCredits env db jid uid amt) jid' = traceOf db jid' := by
  simp [traceOf, log_refundCredits]

/-- A status write touching no row leaves the observable history alone. -/
theorem traceOf_updateJobStatus_absent (db : DB) (jid status : String)
    (fin : Option Nat) (cost : Option Int)
    (h : db.jobs.any (fun j => j.id == jid) = false) :
    traceOf (updateJobStatus db jid status fin cost) jid = traceOf db jid := by
  simp [traceOf, log_updateJobStatus_of_absent db jid status fin cost h]

theorem traceOf_saveResults (env : Env) (jid' : String) (db : DB)
    (imgs : List ImagePayload) (jid : String) :
    traceOf (saveResults env jid' db imgs).1 jid = traceOf db jid := by
  simp [traceOf, saveResults, log_saveLoop]

/-- The handler either leaves the observable status history alone (its write
raised, or no row matched) or appends exactly one `failed`. -/
theorem traceOf_handleExn (env : Env) (jid : String) (dbX : DB) (attrs : Attrs)
    (e : PyErr) :
    traceOf (handleExn env jid dbX attrs e).1 jid = traceOf dbX jid ∨
    traceOf (handleExn env jid dbX attrs e).1 jid = traceOf dbX jid ++ ["failed"] := by
  unfold handleExn
  by_cases hF : env.updateFailedOk = true
  · simp only [hF, if_true]
    have hstep : ∀ hx : List String → Prop,
        (hx (traceOf (updateJobStatus dbX jid "failed" (some env.now) none) jid)) →
        hx (traceOf (if attrs.required_credits > 0 then
            match attrs.projectAttr with
            | some project => refundCredits env
                (updateJobStatus dbX jid "failed" (some env.now) none) jid
                project.user_id attrs.required_credits
            | none => updateJobStatus dbX jid "failed" (some env.now) none
          else updateJobStatus dbX jid "failed" (some env.now) none) jid) := by
      intro hx hbase
      by_cases hc : attrs.required_credits > 0
      · rw [if_pos hc]
        cases attrs.projectAttr
        · exact hbase
        · rw [traceOf_refundCredits]; exact hbase
      · rw [if_neg hc]; exact hbase
    by_cases hex : dbX.jobs.any (fun j => j.id == jid) = true
    · right
      exact hstep (fun l => l = traceOf dbX jid ++ ["failed"])
        (traceOf_updateJobStatus_self dbX jid "failed" (some env.now) none hex)
    · left
      exact hstep (fun l => l = traceOf dbX jid)
        (traceOf_updateJobStatus_absent dbX jid "failed" (some env.now) none
          (by simpa using hex))
  · simp [hF]

/-- Any run of `process` whose `try` body raised can only leave the trace
alone, add `running`, add `failed`, or add `running` then `failed`. -/
theorem process_trace_exn (env : Env) (jid : String) (db dbX : DB) (attrs : Attrs)
    (e : PyErr)
    (hexn : processBody env jid db = .exn dbX attrs e)
    (htrX : traceOf dbX jid = traceOf db jid ∨
            traceOf dbX jid = traceOf db jid ++ ["running"]) :
    traceOf (process env jid db).1 jid ∈
      [traceOf db jid, traceOf db jid ++ ["running"],
       traceOf db jid ++ ["failed"],
       traceOf db jid ++ ["running", "succeeded"],
       traceOf db jid ++ ["running", "failed"]] := by
  unfold process
  rw [hexn]
  show traceOf (handleExn env jid dbX attrs e).1 jid ∈ _
  rcases traceOf_handleExn env jid dbX attrs e with h | h <;> rcases htrX with h2 | h2 <;>
    rw [h, h2] <;> simp [List.append_assoc]

/-- Every single run of `process` on a stored job extends that job's
observable status history by one of: nothing, `running`, `failed`,
`running, succeeded`, or `running, failed`. -/
theorem process_trace (env : Env) (jid : String) (db : DB) (job : JobRow)
    (hj : db.jobs.find? (fun j => j.id == jid) = some job) :
    traceOf (process env jid db).1 jid ∈
      [traceOf db jid, traceOf db jid ++ ["running"],
       traceOf db jid ++ ["failed"],
       traceOf db jid ++ ["running", "succeeded"],
       traceOf db jid ++ ["running", "failed"]] := by
  have hmem : job ∈ db.jobs := List.mem_of_find?_eq_some hj
  have hpj : (fun j => j.id == jid) job = true :=
    @List.find?_some _ (fun j => j.id == jid) job db.jobs hj
  have hex : db.jobs.any (fun j => j.id == jid) = true :=
    List.any_eq_true.mpr ⟨job, hmem, hpj⟩
  have htr1 : traceOf (updateJobStatus db jid "running" none none) jid
      = traceOf db jid ++ ["running"] :=
    traceOf_updateJobStatus_self db jid "running" none none hex
  by_cases h1 : env.fetchJobOk = true
  case neg =>
    rw [Bool.not_eq_true] at h1
    exact process_trace_exn env jid db db _ _
      (by simp only [processBody, h1, Bool.false_eq_true, if_false]; rfl) (Or.inl rfl)
  by_cases h2 : env.updateRunningOk = true
  case neg =>
    rw [Bool.not_eq_true] at h2
    exact process_trace_exn env jid db db _ _
      (by simp only [processBody, h1, if_true, hj, h2, Bool.false_eq_true, if_false]; rfl)
      (Or.inl rfl)
  by_cases h3 : env.fetchProjectOk = true
  case neg =>
    rw [Bool.not_eq_true] at h3
    exact process_trace_exn env jid db _ _ _
      (by simp only [processBody, h1, h2, if_true, hj, h3, Bool.false_eq_true, if_false]; rfl)
      (Or.inr htr1)
  cases hfp : db.projects.find? (fun p => p.id == job.project_id)
  · exact process_trace_exn env jid db _ _ _
      (by simp only [processBody, h1, h2, h3, if_true, hj, projects_updateJobStatus, hfp]; rfl)
      (Or.inr htr1)
  rename_i project
  by_cases h4 : env.fetchPromptOk = true
  case neg =>
    rw [Bool.not_eq_true] at h4
    exact process_trace_exn env jid db _ _ _
      (by simp only [processBody, h1, h2, h3, if_true, hj, projects_updateJobStatus, hfp,
        h4, Bool.false_eq_true, if_false]; rfl) (Or.inr htr1)
  cases hfpr : db.prompts.find? (fun pr => pr.project_id == job.project_id)
  · exact process_trace_exn env jid db _ _ _
      (by simp only [processBody, h1, h2, h3, h4, if_true, hj, projects_updateJobStatus,
        prompts_updateJobStatus, hfp, hfpr]; rfl) (Or.inr htr1)
  rename_i promptRow
  by_cases h5 : env.fetchUserOk = true
  case neg =>
    rw [Bool.not_eq_true] at h5
    exact process_trace_exn env jid db _ _ _
      (by simp only [processBody, h1, h2, h3, h4, if_true, hj, projects_updateJobStatus,
        prompts_updateJobStatus, hfp, hfpr, h5, Bool.false_eq_true, if_false]; rfl)
      (Or.inr htr1)
  cases hfu : db.users.find? (fun u => u.id == project.user_id)
  · exact process_trace_exn env jid db _ _ _
      (by simp only [processBody, h1, h2, h3, h4, h5, if_true, hj, projects_updateJobStatus,
        prompts_updateJobStatus, users_updateJobStatus, hfp, hfpr, hfu]; rfl) (Or.inr htr1)
  rename_i user
  by_cases hcred : user.credits < env.calculate_job_credits (jobInfoOf job project)
  case pos =>
    exact process_trace_exn env jid db _ _ _
      (processBody_insufficient env jid db job project promptRow user
        h1 h2 h3 h4 h5 hj hfp hfpr hfu hcred) (Or.inr htr1)
  by_cases h6 : env.deductUpdateOk = true
  case neg =>
    rw [Bool.not_eq_true] at h6
    refine process_trace_exn env jid db (updateJobStatus db jid "running" none none)
      ⟨some project, 0⟩ .dbError ?_ (Or.inr htr1)
    simp only [jobInfoOf] at hcred
    simp only [processBody, h1, h2, h3, h4, h5, if_true, hj, projects_updateJobStatus,
      prompts_updateJobStatus, users_updateJobStatus, hfp, hfpr, hfu,
      h6, Bool.false_eq_true, if_false]
    rw [if_neg hcred]
  by_cases h7 : env.deductAuditOk = true
  case neg =>
    rw [Bool.not_eq_true] at h7
    refine process_trace_exn env jid db
      (updateUserCredits (updateJobStatus db jid "running" none none) project.user_id
        (user.credits - env.calculate_job_credits (jobInfoOf job project)))
      ⟨some project, 0⟩ .dbError ?_
      (Or.inr (by simp only [traceOf_updateUserCredits]; exact htr1))
    simp only [jobInfoOf] at hcred
    simp only [processBody, h1, h2, h3, h4, h5, h6, if_true, hj, projects_updateJobStatus,
      prompts_updateJobStatus, users_updateJobStatus, hfp, hfpr, hfu,
      h7, Bool.false_eq_true, if_false]
    rw [if_neg hcred]
    rfl
  have hbody := processBody_deducted env jid db job project promptRow user
    h1 h2 h3 h4 h5 h6 h7 hj hfp hfpr hfu hcred
  have htrD : traceOf (afterDeduct db jid project.user_id
      (user.credits - env.calculate_job_credits (jobInfoOf job project))
      (env.calculate_job_credits (jobInfoOf job project))) jid
      = traceOf db jid ++ ["running"] := by
    simp only [afterDeduct, traceOf_insertAudit, traceOf_updateUserCredits]
    exact htr1
  cases hgen : dispatchGenerate env (job.model.getD "nano_banana")
  · exact process_trace_exn env jid db _ _ _
      (by rw [hbody]; unfold bodyTail; rw [hgen]) (Or.inr htrD)
  rename_i images
  by_cases hne : images.isEmpty = true
  case pos =>
    exact process_trace_exn env jid db _ _ _
      (by rw [hbody]; unfold bodyTail; simp only [hgen, hne, if_true]; rfl) (Or.inr htrD)
  rw [Bool.not_eq_true] at hne
  have htrS : traceOf (saveResults env jid (afterDeduct db jid project.user_id
      (user.credits - env.calculate_job_credits (jobInfoOf job project))
      (env.calculate_job_credits (jobInfoOf job project))) images).1 jid
      = traceOf db jid ++ ["running"] := by
    rw [traceOf_saveResults]; exact htrD
  by_cases hz : (saveResults env jid (afterDeduct db jid project.user_id
      (user.credits - env.calculate_job_credits (jobInfoOf job project))
      (env.calculate_job_credits (jobInfoOf job project))) images).2 = 0
  case pos =>
    refine process_trace_exn env jid db
      (saveResults env jid (afterDeduct db jid project.user_id
        (user.credits - env.calculate_job_credits (jobInfoOf job project))
        (env.calculate_job_credits (jobInfoOf job project))) images).1
      ⟨some project, env.calculate_job_credits (jobInfoOf job project)⟩ .saveFailed
      ?_ (Or.inr htrS)
    rw [hbody]; unfold bodyTail
    simp only [hgen, hne, Bool.false_eq_true, if_false, hz, beq_self_eq_true, if_true]
  by_cases hS : env.updateSucceededOk = true
  case neg =>
    rw [Bool.not_eq_true] at hS
    refine process_trace_exn env jid db
      (saveResults env jid (afterDeduct db jid project.user_id
        (user.credits - env.calculate_job_credits (jobInfoOf job project))
        (env.calculate_job_credits (jobInfoOf job project))) images).1
      ⟨some project, env.calculate_job_credits (jobInfoOf job project)⟩ .dbError
      ?_ (Or.inr htrS)
    rw [hbody]; unfold bodyTail
    simp only [hgen, hne, Bool.false_eq_true, if_false, hS]
    rw [if_neg (by simpa using hz)]
  have hdone : processBody env jid db =
      .done (updateJobStatus (saveResults env jid (afterDeduct db jid project.user_id
          (user.credits - env.calculate_job_credits (jobInfoOf job project))
          (env.calculate_job_credits (jobInfoOf job project))) images).1
          jid "succeeded" (some env.now)
          (some (env.calculate_job_credits (jobInfoOf job project))))
        (saveResults env jid (afterDeduct db jid project.user_id
          (user.credits - env.calculate_job_credits (jobInfoOf job project))
          (env.calculate_job_credits (jobInfoOf job project))) images).2
        (env.calculate_job_credits (jobInfoOf job project)) := by
    rw [hbody]; unfold bodyTail
    simp only [hgen, hne, Bool.false_eq_true, if_false, hS, if_true]
    rw [if_neg (by simpa using hz)]
  have hexS : (saveResults env jid (afterDeduct db jid project.user_id
      (user.credits - env.calculate_job_credits (jobInfoOf job project))
      (env.calculate_job_credits (jobInfoOf job project))) images).1.jobs.any
        (fun j => j.id == jid) = true := by
    simp only [saveResults, jobs_saveLoop, afterDeduct, jobs_insertAudit,
      jobs_updateUserCredits, any_updateJobStatus]
    exact hex
  unfold process
  rw [hdone]
  show traceOf (updateJobStatus _ jid "succeeded" (some env.now) _) jid ∈ _
  rw [traceOf_updateJobStatus_self _ jid "succeeded" (some env.now) _ hexS, htrS]
  simp [List.append_assoc]

/-- Like `envAll` but the initial job fetch raises (a store read error while
the row exists). -/
def envC2 : Env := { envAll with fetchJobOk := false }

/-- Counterexample to C2 as stated: when the initial job fetch raises, the
central handler still writes `failed`, so a queued job's observed status
sequence is `[queued, failed]` — not one of `[queued]`,
`[queued, running, succeeded]`, `[queued, running, failed]`. -/
theorem c2_counterexample :
    traceOf (process envC2 "j1" dbQueued).1 "j1" = ["queued", "failed"] ∧
    ["queued", "failed"] ∉
      ([ ["queued"], ["queued", "running", "succeeded"],
         ["queued", "running", "failed"] ] : List (List String)) := by
  constructor
  · decide
  · decide

/-- C2 (amended).  For a stored job whose observed history is `[queued]`,
one run of `process` leaves the history equal to one of `[queued]`,
`[queued, failed]`, `[queued, running]`, `[queued, running, succeeded]`,
`[queued, running, failed]`: `running` never appears without a preceding
`queued`, and no transition follows a terminal state; but when the job fetch
or the `running` write raises, `queued` can be followed directly by
`failed`. -/
theorem c2_status_trace_amended (env : Env) (jid : String) (db : DB) (job : JobRow)
    (hj : db.jobs.find? (fun j => j.id == jid) = some job)
    (htr : traceOf db jid = ["queued"]) :
    traceOf (process env jid db).1 jid ∈
      [["queued"], ["queued", "running"], ["queued", "failed"],
       ["queued", "running", "succeeded"], ["queued", "running", "failed"]] := by
  have h := process_trace env jid db job hj
  rw [htr] at h
  simpa using h

/-- Witness for the amended C2: the all-success run yields
`[queued, running, succeeded]`. -/
theorem c2_witness :
    traceOf (process envAll "j1" dbQueued).1 "j1" ∈
      [["queued"], ["queued", "running"], ["queued", "failed"],
       ["queued", "running", "succeeded"], ["queued", "running", "failed"]] :=
  c2_status_trace_amended envAll "j1" dbQueued jobJ1 rfl rfl

/-- C6.  The three validation points — project creation, job creation,
queueing — use the same allow-list and the same default: a model identifier
outside the allow-list is silently replaced by `"nano_banana"` and the
request proceeds (the prompt row records the default; the job row is
inserted with the default model and the endpoint answers `queued` instead of
rejecting). -/
theorem c6_unknown_model_fallback (m : String)
    (hm : available_models_queue.contains m = false) (hm0 : m ≠ "") :
    available_models_jobs = available_models_queue ∧
    available_models_project = available_models_queue ∧
    (∀ (npid : String) (db : DB) (uid : String) (p : ProjectCreate),
      p.model_pref = some m →
      ((createProject npid db uid p).prompts.getLast?).map (fun pr => pr.model_pref)
        = some (some "nano_banana")) ∧
    (∀ (cost : JobInfo → Int) (nid : String) (db : DB) (uid : String)
      (jin : JobCreate) (project : ProjectRow) (u : UserRow),
      jin.model = some m →
      db.projects.find? (fun pr => pr.id == jin.project_id && pr.user_id == uid)
        = some project →
      db.users.find? (fun x => x.id == uid) = some u →
      ¬ u.credits < cost { quality := jin.quality, mode := project.mode,
                           model := "nano_banana" } →
      ∃ db' r, createJob cost nid db uid jin = .ok (db', r) ∧
        (db'.jobs.getLast?).map (fun j => j.model) = some (some "nano_banana") ∧
        r.status = "queued") ∧
    (∀ (cost : JobInfo → Int) (nid : String) (db : DB) (pid uid : String)
      (jin : JobQueueRequest) (project : ProjectRow) (u : UserRow),
      jin.model = some m →
      db.projects.find? (fun pr => pr.id == pid && pr.user_id == uid) = some project →
      db.users.find? (fun x => x.id == uid) = some u →
      ¬ u.credits < cost { quality := jin.quality, mode := project.mode,
                           model := "nano_banana" } →
      ∃ db' r, queueGeneration cost nid db pid uid jin = .ok (db', r) ∧
        (db'.jobs.getLast?).map (fun j => j.model) = some (some "nano_banana") ∧
        r.status = "queued") := by
  have hbe : (m == "") = false := beq_eq_false_iff_ne.mpr hm0
  have hmj : available_models_jobs.contains m = false := hm
  have hmp : available_models_project.contains m = false := hm
  refine ⟨rfl, rfl, ?_, ?_, ?_⟩
  · intro npid db uid p hpm
    simp only [createProject, hpm, strTruthy, hbe, Bool.not_false, if_true,
      Option.getD_some, hmp, Bool.false_eq_true, if_false]
    simp [List.getLast?_concat]
  · intro cost nid db uid jin project u hjm hfp hfu hcred
    have hrun : createJob cost nid db uid jin = .ok
        (insertJob db
          { id := nid, project_id := jin.project_id, model := some "nano_banana",
            quality := some jin.quality, status := "queued",
            cost_credits := some (cost { quality := jin.quality, mode := project.mode,
                                         model := "nano_banana" }),
            finished_at := none, provider := some "nano_banana",
            provider_meta_provider := none },
         { job_id := nid, status := "queued",
           cost_credits := cost { quality := jin.quality, mode := project.mode,
                                  model := "nano_banana" } }) := by
      simp only [createJob, hfp, hjm, strTruthy, hbe, Bool.not_false, if_true,
        Option.getD_some, hmj, Bool.false_eq_true, if_false, hfu]
      rw [if_neg hcred]
    exact ⟨_, _, hrun, by simp [jobs_insertJob, List.getLast?_concat], rfl⟩
  · intro cost nid db pid uid jin project u hjm hfp hfu hcred
    have hrun : queueGeneration cost nid db pid uid jin = .ok
        (insertAudit
          (updateUserCredits
            (insertJob db
              { id := nid, project_id := pid, model := some "nano_banana",
                quality := some jin.quality, status := "queued",
                cost_credits := some (cost { quality := jin.quality, mode := project.mode,
                                             model := "nano_banana" }),
                finished_at := none, provider := none,
                provider_meta_provider := some "nano_banana" })
            uid (u.credits - cost { quality := jin.quality, mode := project.mode,
                                    model := "nano_banana" }))
          (jobQueuedEntry uid nid pid
            (cost { quality := jin.quality, mode := project.mode,
                    model := "nano_banana" })),
         { job_id := nid, status := "queued",
           cost_credits := cost { quality := jin.quality, mode := project.mode,
                                  model := "nano_banana" } }) := by
      simp only [queueGeneration, hfp, hjm, strTruthy, hbe, Bool.not_false, if_true,
        Option.getD_some, hm, Bool.false_eq_true, if_false, hfu]
      rw [if_neg hcred]
    exact ⟨_, _, hrun,
      by simp [jobs_insertAudit, jobs_updateUserCredits, jobs_insertJob,
        List.getLast?_concat], rfl⟩

/-- Witness for C6: a request with unknown model `"dalle3"` is queued with
the job row recording `"nano_banana"`. -/
theorem c6_witness :
    ∃ db' r, queueGeneration (fun _ => 10) "j2" dbQueued "p1" "u1"
        { quality := "std", variants := 2, model := some "dalle3" } = .ok (db', r) ∧
      (db'.jobs.getLast?).map (fun j => j.model) = some (some "nano_banana") ∧
      r.status = "queued" :=
  (c6_unknown_model_fallback "dalle3" (by decide) (by decide)).2.2.2.2
    (fun _ => 10) "j2" dbQueued "p1" "u1"
    { quality := "std", variants := 2, model := some "dalle3" }
    projP1 { id := "u1", credits := 50 } rfl rfl rfl (by decide)

/-- The fully successful run of `process`: status ends `succeeded` with the
results persisted. -/
theorem process_done_spec
    (env : Env) (jid : String) (db : DB) (job : JobRow) (project : ProjectRow)
    (pr : PromptRow) (user : UserRow) (images : List ImagePayload)
    (h1 : env.fetchJobOk = true) (h2 : env.updateRunningOk = true)
    (h3 : env.fetchProjectOk = true) (h4 : env.fetchPromptOk = true)
    (h5 : env.fetchUserOk = true) (h6 : env.deductUpdateOk = true)
    (h7 : env.deductAuditOk = true) (hS : env.updateSucceededOk = true)
    (hj : db.jobs.find? (fun x => x.id == jid) = some job)
    (hp : db.projects.find? (fun x => x.id == job.project_id) = some project)
    (hpr : db.prompts.find? (fun x => x.project_id == job.project_id) = some pr)
    (hu : db.users.find? (fun x => x.id == project.user_id) = some user)
    (hcred : ¬ user.credits < env.calculate_job_credits (jobInfoOf job project))
    (hgen : dispatchGenerate env (job.model.getD "nano_banana") = .ok images)
    (hne : images.isEmpty = false)
    (hnz : ¬ (saveResults env jid (afterDeduct db jid project.user_id
        (user.credits - env.calculate_job_credits (jobInfoOf job project))
        (env.calculate_job_credits (jobInfoOf job project))) images).2 = 0) :
    process env jid db =
      (updateJobStatus (saveResults env jid (afterDeduct db jid project.user_id
          (user.credits - env.calculate_job_credits (jobInfoOf job project))
          (env.calculate_job_credits (jobInfoOf job project))) images).1
        jid "succeeded" (some env.now)
        (some (env.calculate_job_credits (jobInfoOf job project))),
       .returned { success := true,
                   images_saved := some (saveResults env jid (afterDeduct db jid
                     project.user_id
                     (user.credits - env.calculate_job_credits (jobInfoOf job project))
                     (env.calculate_job_credits (jobInfoOf job project))) images).2,
                   error := none }) := by
  have hbody := processBody_deducted env jid db job project pr user
    h1 h2 h3 h4 h5 h6 h7 hj hp hpr hu hcred
  have hdone : processBody env jid db =
      .done (updateJobStatus (saveResults env jid (afterDeduct db jid project.user_id
          (user.credits - env.calculate_job_credits (jobInfoOf job project))
          (env.calculate_job_credits (jobInfoOf job project))) images).1
          jid "succeeded" (some env.now)
          (some (env.calculate_job_credits (jobInfoOf job project))))
        (saveResults env jid (afterDeduct db jid project.user_id
          (user.credits - env.calculate_job_credits (jobInfoOf job project))
          (env.calculate_job_credits (jobInfoOf job project))) images).2
        (env.calculate_job_credits (jobInfoOf job project)) := by
    rw [hbody]; unfold bodyTail
    simp only [hgen, hne, Bool.false_eq_true, if_false, hS, if_true]
    rw [if_neg (by simpa using hnz)]
  unfold process
  rw [hdone]

/-- A provider error after a completed deduction, with the failure path
fully succeeding: the explicit final state (failed status, balance written
back, both audit rows). -/
theorem process_provider_error_spec
    (env : Env) (jid : String) (db : DB) (job : JobRow) (project : ProjectRow)
    (pr : PromptRow) (user : UserRow) (e : PyErr)
    (h1 : env.fetchJobOk = true) (h2 : env.updateRunningOk = true)
    (h3 : env.fetchProjectOk = true) (h4 : env.fetchPromptOk = true)
    (h5 : env.fetchUserOk = true) (h6 : env.deductUpdateOk = true)
    (h7 : env.deductAuditOk = true) (hF : env.updateFailedOk = true)
    (hr1 : env.refundSelectOk = true) (hr2 : env.refundUpdateOk = true)
    (hr3 : env.refundAuditOk = true)
    (hj : db.jobs.find? (fun x => x.id == jid) = some job)
    (hp : db.projects.find? (fun x => x.id == job.project_id) = some project)
    (hpr : db.prompts.find? (fun x => x.project_id == job.project_id) = some pr)
    (hu : db.users.find? (fun x => x.id == project.user_id) = some user)
    (hcred : ¬ user.credits < env.calculate_job_credits (jobInfoOf job project))
    (hpos : (0 : Int) < env.calculate_job_credits (jobInfoOf job project))
    (hgen : dispatchGenerate env (job.model.getD "nano_banana") = .error e) :
    process env jid db =
      (insertAudit
        (updateUserCredits
          (updateJobStatus (afterDeduct db jid project.user_id
            (user.credits - env.calculate_job_credits (jobInfoOf job project))
            (env.calculate_job_credits (jobInfoOf job project)))
            jid "failed" (some env.now) none)
          project.user_id
          (user.credits - env.calculate_job_credits (jobInfoOf job project)
            + env.calculate_job_credits (jobInfoOf job project)))
        (refundEntry project.user_id jid
          (env.calculate_job_credits (jobInfoOf job project))),
       .returned { success := false, images_saved := none, error := some e }) := by
  have hbody := processBody_deducted env jid db job project pr user
    h1 h2 h3 h4 h5 h6 h7 hj hp hpr hu hcred
  have huD : (afterDeduct db jid project.user_id
      (user.credits - env.calculate_job_credits (jobInfoOf job project))
      (env.calculate_job_credits (jobInfoOf job project))).users.find?
        (fun x => x.id == project.user_id)
      = some { user with
               credits := user.credits - env.calculate_job_credits (jobInfoOf job project) } := by
    simp only [afterDeduct, users_insertAudit]
    exact find?_users_updateUserCredits _ _ _ user (by rw [users_updateJobStatus]; exact hu)
  have hexn : processBody env jid db =
      .exn (afterDeduct db jid project.user_id
        (user.credits - env.calculate_job_credits (jobInfoOf job project))
        (env.calculate_job_credits (jobInfoOf job project)))
        { projectAttr := some project,
          required_credits := env.calculate_job_credits (jobInfoOf job project) } e := by
    rw [hbody]; unfold bodyTail; rw [hgen]
  unfold process
  rw [hexn]
  show handleExn env jid _ _ e = _
  rw [handleExn_refundOk env jid _ project
    (env.calculate_job_credits (jobInfoOf job project)) e _ hF hr1 hr2 hr3 hpos huD]


/-- The job row `queue_generation` inserts when the validated model is
`"nano_banana"`. -/
def queuedJobRow (nid pid quality : String) (c : Int) : JobRow :=
  { id := nid, project_id := pid, model := some "nano_banana", quality := some quality,
    status := "queued", cost_credits := some c, finished_at := none, provider := none,
    provider_meta_provider := some "nano_banana" }

/-- C5 (implicit).  A successful `queue_generation` call itself subtracts
the cost from the caller's balance and appends a `job_queued` audit entry
with delta `-cost` before the orchestrator runs; since the orchestrator
deducts again, a job that then completes successfully reduces the balance by
twice its cost in total, and when the provider fails only the orchestrator's
deduction is refunded — the balance stays down by one cost and the audit
trail reads `job_queued`, `deduct_credits`, `refund_credits`. -/
theorem c5_queue_endpoint_double_deduction
    (cost : JobInfo → Int) (nid : String) (db : DB) (pid uid : String)
    (jin : JobQueueRequest) (project : ProjectRow) (promptRow : PromptRow) (u : UserRow)
    (hfpo : db.projects.find? (fun p => p.id == pid && p.user_id == uid) = some project)
    (hfp : db.projects.find? (fun p => p.id == pid) = some project)
    (hpuid : project.user_id = uid)
    (hprm : db.prompts.find? (fun p => p.project_id == pid) = some promptRow)
    (hfu : db.users.find? (fun x => x.id == uid) = some u)
    (hjm : jin.model = some "nano_banana")
    (hfresh : db.jobs.find? (fun j => j.id == nid) = none)
    (hcredQ : ¬ u.credits < cost { quality := jin.quality, mode := project.mode,
                                   model := "nano_banana" }) :
    ∃ db1 r, queueGeneration cost nid db pid uid jin = .ok (db1, r) ∧
      userCredits db1 uid = some (u.credits
        - cost { quality := jin.quality, mode := project.mode, model := "nano_banana" }) ∧
      db1.audit = db.audit ++ [jobQueuedEntry uid nid pid
        (cost { quality := jin.quality, mode := project.mode, model := "nano_banana" })] ∧
      (∀ (env : Env) (images : List ImagePayload),
        env.fetchJobOk = true → env.updateRunningOk = true → env.fetchProjectOk = true →
        env.fetchPromptOk = true → env.fetchUserOk = true → env.deductUpdateOk = true →
        env.deductAuditOk = true → env.updateSucceededOk = true →
        env.calculate_job_credits = cost →
        ¬ u.credits - cost { quality := jin.quality, mode := project.mode,
                             model := "nano_banana" }
            < cost { quality := jin.quality, mode := project.mode, model := "nano_banana" } →
        env.genGemini = some images → images ≠ [] →
        (∀ i, env.imgBytesOk i = true) → (∀ i, env.imgUploadOk i = true) →
        (∀ i, env.imgInsertOk i = true) →
        userCredits (process env nid db1).1 uid = some (u.credits
          - cost { quality := jin.quality, mode := project.mode, model := "nano_banana" }
          - cost { quality := jin.quality, mode := project.mode, model := "nano_banana" })) ∧
      (∀ env : Env,
        env.fetchJobOk = true → env.updateRunningOk = true → env.fetchProjectOk = true →
        env.fetchPromptOk = true → env.fetchUserOk = true → env.deductUpdateOk = true →
        env.deductAuditOk = true → env.updateFailedOk = true →
        env.refundSelectOk = true → env.refundUpdateOk = true → env.refundAuditOk = true →
        env.calculate_job_credits = cost →
        ¬ u.credits - cost { quality := jin.quality, mode := project.mode,
                             model := "nano_banana" }
            < cost { quality := jin.quality, mode := project.mode, model := "nano_banana" } →
        (0 : Int) < cost { quality := jin.quality, mode := project.mode,
                           model := "nano_banana" } →
        env.genGemini = none →
        userCredits (process env nid db1).1 uid = some (u.credits
          - cost { quality := jin.quality, mode := project.mode, model := "nano_banana" }) ∧
        (process env nid db1).1.audit = db.audit ++
          [jobQueuedEntry uid nid pid
            (cost { quality := jin.quality, mode := project.mode, model := "nano_banana" }),
           deductEntry uid nid
            (cost { quality := jin.quality, mode := project.mode, model := "nano_banana" }),
           refundEntry uid nid
            (cost { quality := jin.quality, mode := project.mode, model := "nano_banana" })]) := by
  subst hpuid
  set c : Int := cost { quality := jin.quality, mode := project.mode,
                        model := "nano_banana" } with hc
  have hsb : strTruthy (some "nano_banana") = true := by decide
  have hin : available_models_queue.contains "nano_banana" = true := by decide
  have hrun : queueGeneration cost nid db pid project.user_id jin = .ok
      (insertAudit
        (updateUserCredits (insertJob db (queuedJobRow nid pid jin.quality c))
          project.user_id (u.credits - c))
        (jobQueuedEntry project.user_id nid pid c),
       { job_id := nid, status := "queued", cost_credits := c }) := by
    simp only [queueGeneration, hfpo, hjm, hsb, if_true, Option.getD_some, hin, hfu, hc]
    rw [if_neg (by rw [hc] at hcredQ; exact hcredQ)]
    rfl
  have hu1 : (insertAudit
      (updateUserCredits (insertJob db (queuedJobRow nid pid jin.quality c))
        project.user_id (u.credits - c))
      (jobQueuedEntry project.user_id nid pid c)).users.find?
        (fun x => x.id == project.user_id)
      = some { u with credits := u.credits - c } := by
    simp only [users_insertAudit]
    exact find?_users_updateUserCredits _ project.user_id _ u
      (by rw [users_insertJob]; exact hfu)
  have hj1 : (insertAudit
      (updateUserCredits (insertJob db (queuedJobRow nid pid jin.quality c))
        project.user_id (u.credits - c))
      (jobQueuedEntry project.user_id nid pid c)).jobs.find? (fun x => x.id == nid)
      = some (queuedJobRow nid pid jin.quality c) := by
    simp only [jobs_insertAudit, jobs_updateUserCredits, jobs_insertJob]
    rw [List.find?_append, hfresh]
    simp [queuedJobRow]
  refine ⟨_, _, hrun, ?_, ?_, ?_, ?_⟩
  · simp only [userCredits, hu1, Option.map_some']
  · simp only [audit_insertAudit, audit_updateUserCredits, audit_insertJob]
  · intro env images e1 e2 e3 e4 e5 e6 e7 e8 hcost h2c hG hneI hB hU hI
    have hc2 : env.calculate_job_credits
        (jobInfoOf (queuedJobRow nid pid jin.quality c) project) = c := by
      rw [hcost, hc]
      rfl
    have hgen1 : dispatchGenerate env
        ((queuedJobRow nid pid jin.quality c).model.getD "nano_banana") = .ok images := by
      show dispatchGenerate env "nano_banana" = .ok images
      unfold dispatchGenerate
      rw [if_pos (by decide :
        (strContains "nano_banana" "gemini" || strContains "nano_banana" "nano") = true), hG]
    have hne1 : images.isEmpty = false := by
      cases images with
      | nil => exact absurd rfl hneI
      | cons a l => rfl
    have hcred' : ¬ ({ u with credits := u.credits - c } : UserRow).credits
        < env.calculate_job_credits
            (jobInfoOf (queuedJobRow nid pid jin.quality c) project) := by
      rw [hc2]
      exact h2c
    have hnz : ¬ (saveResults env nid (afterDeduct
        (insertAudit
          (updateUserCredits (insertJob db (queuedJobRow nid pid jin.quality c))
            project.user_id (u.credits - c))
          (jobQueuedEntry project.user_id nid pid c))
        nid project.user_id
        (({ u with credits := u.credits - c } : UserRow).credits
          - env.calculate_job_credits
              (jobInfoOf (queuedJobRow nid pid jin.quality c) project))
        (env.calculate_job_credits
          (jobInfoOf (queuedJobRow nid pid jin.quality c) project))) images).2 = 0 := by
      rw [saveResults, snd_saveLoop]
      rw [List.filter_eq_self.mpr ?_]
      · rw [List.enumFrom_length, List.length_eq_zero]
        exact hneI
      · intro a _
        rcases a with ⟨i, img⟩
        cases img <;> simp [imgSaves, hB, hU, hI]
    have hdone := process_done_spec env nid _ _ project promptRow
      { u with credits := u.credits - c } images
      e1 e2 e3 e4 e5 e6 e7 e8 hj1 hfp hprm hu1 hcred' hgen1 hne1 hnz
    rw [hdone]
    simp only [userCredits, users_updateJobStatus, saveResults, users_saveLoop,
      afterDeduct, users_insertAudit]
    rw [find?_users_updateUserCredits _ project.user_id _ { u with credits := u.credits - c }
      (by rw [users_updateJobStatus]; exact hu1)]
    simp only [Option.map_some']
    rw [hc2]
  · intro env e1 e2 e3 e4 e5 e6 e7 eF er1 er2 er3 hcost h2c hposC hG
    have hc2 : env.calculate_job_credits
        (jobInfoOf (queuedJobRow nid pid jin.quality c) project) = c := by
      rw [hcost, hc]
      rfl
    have hgen1 : dispatchGenerate env
        ((queuedJobRow nid pid jin.quality c).model.getD "nano_banana")
        = .error .providerError := by
      show dispatchGenerate env "nano_banana" = .error .providerError
      unfold dispatchGenerate
      rw [if_pos (by decide :
        (strContains "nano_banana" "gemini" || strContains "nano_banana" "nano") = true), hG]
    have hcred' : ¬ ({ u with credits := u.credits - c } : UserRow).credits
        < env.calculate_job_credits
            (jobInfoOf (queuedJobRow nid pid jin.quality c) project) := by
      rw [hc2]
      exact h2c
    have hpos' : (0 : Int) < env.calculate_job_credits
        (jobInfoOf (queuedJobRow nid pid jin.quality c) project) := by
      rw [hc2]
      exact hposC
    have hspec := process_provider_error_spec env nid _ _ project promptRow
      { u with credits := u.credits - c } .providerError
      e1 e2 e3 e4 e5 e6 e7 eF er1 er2 er3 hj1 hfp hprm hu1 hcred' hpos' hgen1
    rw [hspec]
    have hu2 : (updateJobStatus (afterDeduct
        (insertAudit
          (updateUserCredits (insertJob db (queuedJobRow nid pid jin.quality c))
            project.user_id (u.credits - c))
          (jobQueuedEntry project.user_id nid pid c))
        nid project.user_id
        (({ u with credits := u.credits - c } : UserRow).credits
          - env.calculate_job_credits
              (jobInfoOf (queuedJobRow nid pid jin.quality c) project))
        (env.calculate_job_credits
          (jobInfoOf (queuedJobRow nid pid jin.quality c) project)))
        nid "failed" (some env.now) none).users.find? (fun x => x.id == project.user_id)
        = some { u with credits := (u.credits - c
            - env.calculate_job_credits
                (jobInfoOf (queuedJobRow nid pid jin.quality c) project)) } := by
      simp only [users_updateJobStatus, afterDeduct, users_insertAudit]
      exact find?_users_updateUserCredits _ project.user_id _
        { u with credits := u.credits - c }
        (by rw [users_updateJobStatus]; exact hu1)
    constructor
    · simp only [userCredits, users_insertAudit]
      rw [find?_users_updateUserCredits _ project.user_id _ _ hu2]
      simp only [Option.map_some']
      rw [hc2]
      congr 1
      exact sub_add_cancel (u.credits - c) c
    · simp only [audit_insertAudit, audit_updateUserCredits, audit_updateJobStatus,
        afterDeduct, audit_insertJob, hc2, List.append_assoc]
      rfl

/-- A store with the user, project and prompt but no job row yet. -/
def dbFresh : DB :=
  { users := [{ id := "u1", credits := 50 }], projects := [projP1],
    prompts := [promptP1], jobs := [], audit := [], renders := [],
    storage := [], httpLog := [], jobStatusLog := [] }

/-- Witness for C5: queueing costs 10 out of 50 (balance 40, `job_queued`
row), a successful run ends at 30, a provider failure ends at 40 with audit
rows `job_queued`, `deduct_credits`, `refund_credits`. -/
theorem c5_witness :
    ∃ db1 r, queueGeneration (fun _ => 10) "j1" dbFresh "p1" "u1"
        { quality := "std", variants := 2, model := some "nano_banana" } = .ok (db1, r) ∧
      userCredits db1 "u1" = some 40 ∧
      userCredits (process envAll "j1" db1).1 "u1" = some 30 ∧
      userCredits (process envGenFail "j1" db1).1 "u1" = some 40 ∧
      (process envGenFail "j1" db1).1.audit =
        [jobQueuedEntry "u1" "j1" "p1" 10, deductEntry "u1" "j1" 10,
         refundEntry "u1" "j1" 10] := by
  obtain ⟨db1, r, hrun, hbal, haud, hsucc, hfail⟩ :=
    c5_queue_endpoint_double_deduction (fun _ => 10) "j1" dbFresh "p1" "u1"
      { quality := "std", variants := 2, model := some "nano_banana" }
      projP1 promptP1 { id := "u1", credits := 50 }
      rfl rfl rfl rfl rfl rfl rfl (by decide)
  obtain ⟨hfb, hfa⟩ := hfail envGenFail
    rfl rfl rfl rfl rfl rfl rfl rfl rfl rfl rfl rfl (by decide) (by decide) rfl
  exact ⟨db1, r, hrun, hbal,
    hsucc envAll [.bytes [1], .bytes [2]] rfl rfl rfl rfl rfl rfl rfl rfl rfl
      (by decide) rfl (by decide) (fun _ => rfl) (fun _ => rfl) (fun _ => rfl),
    hfb, hfa⟩

/-- Whether an endpoint call succeeded. -/
def exceptOk {e a : Type} (x : Except e a) : Bool :=
  match x with
  | .ok _ => true
  | .error _ => false

/-- The end state of the spec's §8 success scenario: user with 50 credits
queues a job costing 10 through `queue_generation` (model taken from the
project's prompt), the provider returns 2 images, everything persists. -/
def c4Final : DB :=
  match queueGeneration (fun _ => 10) "j1" dbFresh "p1" "u1"
      { quality := "std", variants := 2, model := none } with
  | .ok (db1, _) => (process envAll "j1" db1).1
  | .error _ => dbFresh

/-- C4.  Evaluation of the scenario "50 credits, cost 10, 2 images, all
persist": the job succeeds with two render rows and exactly one
`deduct_credits` row of −10, but the final balance is 30, not the claimed
40 — `queue_generation` charged 10 (one `job_queued` audit row) and
`JobProcessor.process` charged another 10. -/
theorem c4_success_scenario_double_charged :
    exceptOk (queueGeneration (fun _ => 10) "j1" dbFresh "p1" "u1"
      { quality := "std", variants := 2, model := none }) = true ∧
    jobStatus c4Final "j1" = some "succeeded" ∧
    (c4Final.renders.filter (fun rr => rr.job_id == "j1")).length = 2 ∧
    (c4Final.audit.filter (fun a =>
      a.action == "deduct_credits" && a.meta_job_id == some "j1")).length = 1 ∧
    (c4Final.audit.filter (fun a => a.action == "job_queued")).length = 1 ∧
    userCredits c4Final "u1" = some 30 ∧
    userCredits c4Final "u1" ≠ some 40 := by
  refine ⟨?_, ?_, ?_, ?_, ?_, ?_, ?_⟩ <;> decide
